import Mathlib

/-!
Verification of the frame-rendering core of the voxceleron engine
(`src/engine/vulkan/pipeline/Pipeline.cpp`).

The development shallowly embeds the `Pipeline` class: GPU handles become
`Bool` ("a live object is held") or `Option` values, the per-slot vectors
become lists, and every GPU call that can fail is driven by an oracle
record `GpuEnv` that fixes the outcome of each kind of call.  The frame
functions additionally return the ordered list of GPU calls they perform
(`Event`), which makes destruction order and "no GPU call attempted"
statements provable.

`MAX_FRAMES_IN_FLIGHT` is declared in the class header, which is not part
of the sources here; the spec fixes it only as "a fixed small constant,
e.g. 2 or 3", so the embedding is parametric in `N` throughout.
-/

namespace Voxceleron

/-- The pipeline state machine states, from `Pipeline::State`. -/
inductive State where
  | UNINITIALIZED
  | READY
  | RECREATING
  deriving DecidableEq, Repr

/-- The Vulkan result codes the pipeline code distinguishes:
success, `VK_SUBOPTIMAL_KHR`, `VK_ERROR_OUT_OF_DATE_KHR`, and any other
(fatal) error code. -/
inductive VkResult where
  | success
  | suboptimalKHR
  | errorOutOfDateKHR
  | errorOther
  deriving DecidableEq, Repr

/-- Recording state of a per-slot command buffer. -/
inductive CmdState where
  | initial
  | recording
  | executable
  deriving DecidableEq, Repr

/-- GPU calls performed by the pipeline, in the order the code issues
them.  Destroy events are emitted only for live (non-null) handles, since
destroying `VK_NULL_HANDLE` is a no-op. -/
inductive Event where
  | evWaitIdle
  | evWaitFence (i : Nat)
  | evAcquire (i : Nat)
  | evResetFence (i : Nat)
  | evResetCommandBuffer (i : Nat)
  | evBeginCommandBuffer (i : Nat)
  | evBeginRenderPass (img : Nat)
  | evBindPipeline (i : Nat)
  | evUpdateUniform (i : Nat)
  | evBindDescriptorSets (i : Nat)
  | evEndRenderPass (i : Nat)
  | evEndCommandBuffer (i : Nat)
  | evQueueSubmit (i : Nat)
  | evPresent (img : Nat)
  | evUnmapUniform (i : Nat)
  | evDestroyUniformBuffer (i : Nat)
  | evFreeUniformMemory (i : Nat)
  | evDestroyDescriptorPool
  | evDestroyDescriptorSetLayout
  | evDestroyVertexBuffer
  | evFreeVertexMemory
  | evDestroyImageAvailableSemaphore (i : Nat)
  | evDestroyRenderFinishedSemaphore (i : Nat)
  | evDestroyFence (i : Nat)
  | evDestroyCommandPool (i : Nat)
  | evDestroyFramebuffer (i : Nat)
  | evDestroyPipeline
  | evDestroyPipelineLayout
  | evDestroyRenderPass
  deriving DecidableEq, Repr

/-- The members of the C++ `Pipeline` class that the claims are about.
Handle-typed members become `Bool` (held or `VK_NULL_HANDLE`); the
per-frame fences are `Option Bool` (`none` = null handle, `some b` =
fence with signaled-bit `b`); the per-frame command buffers are
`Option CmdState` (`none` = unallocated). -/
structure Pipeline where
  state : State
  currentFrame : Nat
  currentImageIndex : Nat
  lastError : Option String
  descriptorSetLayout : Bool
  descriptorPool : Bool
  renderPass : Bool
  pipelineLayout : Bool
  graphicsPipeline : Bool
  vertexBuffer : Bool
  vertexBufferMemory : Bool
  framebuffers : List Bool
  commandPools : List Bool
  commandBuffers : List (Option CmdState)
  uniformBuffers : List Bool
  uniformBuffersMemory : List Bool
  uniformBuffersMapped : List Bool
  imageAvailableSemaphores : List Bool
  renderFinishedSemaphores : List Bool
  inFlightFences : List (Option Bool)
  descriptorSets : List Bool
  deriving DecidableEq, Repr

/-- Outcome oracle for the GPU calls: one flag per call site that can
fail, plus the swapchain data the calls would return.  Creation flags are
per-site, not per-iteration, matching an environment where a given kind of
allocation either works or does not during one driven call. -/
structure GpuEnv where
  descriptorSetLayoutOk : Bool
  renderPassOk : Bool
  vertShaderOk : Bool
  fragShaderOk : Bool
  pipelineLayoutOk : Bool
  graphicsPipelineOk : Bool
  framebufferOk : Bool
  commandPoolOk : Bool
  commandBufferOk : Bool
  bufferOk : Bool
  memoryOk : Bool
  descriptorPoolOk : Bool
  descriptorSetsOk : Bool
  imageSemaphoreOk : Bool
  renderSemaphoreOk : Bool
  fenceOk : Bool
  beginCommandBufferOk : Bool
  endCommandBufferOk : Bool
  queueSubmitOk : Bool
  acquireResult : VkResult
  acquiredImageIndex : Nat
  presentResult : VkResult
  swapChainImageCount : Nat
  deriving DecidableEq, Repr

/-- Records the stage-specific failure message, as `Pipeline::setError`
(declared in the class header) stores the retrievable last-error string. -/
def Pipeline.setError (p : Pipeline) (msg : String) : Pipeline :=
  { p with lastError := some msg }

/-- The freshly constructed pipeline: `Pipeline::Pipeline` null-initializes
the handles, zeroes the frame counters and starts in `UNINITIALIZED`. -/
def Pipeline.start : Pipeline where
  state := State.UNINITIALIZED
  currentFrame := 0
  currentImageIndex := 0
  lastError := none
  descriptorSetLayout := false
  descriptorPool := false
  renderPass := false
  pipelineLayout := false
  graphicsPipeline := false
  vertexBuffer := false
  vertexBufferMemory := false
  framebuffers := []
  commandPools := []
  commandBuffers := []
  uniformBuffers := []
  uniformBuffersMemory := []
  uniformBuffersMapped := []
  imageAvailableSemaphores := []
  renderFinishedSemaphores := []
  inFlightFences := []
  descriptorSets := []

/-- Embeds `Pipeline::createDescriptorSetLayout`. -/
def Pipeline.createDescriptorSetLayout (p : Pipeline) (env : GpuEnv) :
    Bool × Pipeline :=
  if env.descriptorSetLayoutOk then
    (true, { p with descriptorSetLayout := true })
  else
    (false, p.setError "Failed to create descriptor set layout")

/-- Embeds `Pipeline::createRenderPass` (the attachment/subpass setup has
no observable state beyond the created handle). -/
def Pipeline.createRenderPass (p : Pipeline) (env : GpuEnv) :
    Bool × Pipeline :=
  if env.renderPassOk then
    (true, { p with renderPass := true })
  else
    (false, p.setError "Failed to create render pass")

/-- Embeds `Pipeline::createGraphicsPipeline`: shader modules are
transient (created, used, destroyed inside the call), then the pipeline
layout and the graphics pipeline object are created in order. -/
def Pipeline.createGraphicsPipeline (p : Pipeline) (env : GpuEnv) :
    Bool × Pipeline :=
  if env.vertShaderOk && env.fragShaderOk then
    if env.pipelineLayoutOk then
      let p1 := { p with pipelineLayout := true }
      if env.graphicsPipelineOk then
        (true, { p1 with graphicsPipeline := true })
      else
        (false, p1.setError "Failed to create graphics pipeline")
    else
      (false, p.setError "Failed to create pipeline layout")
  else
    (false, p.setError "Failed to create shader modules")

/-- The `for` loop of `Pipeline::createFramebuffers`: `i` is the loop
index, the second argument the remaining iteration count. -/
def framebufferLoop (env : GpuEnv) : Nat → Nat → Pipeline → Bool × Pipeline
  | _, 0, p => (true, p)
  | i, k + 1, p =>
    if env.framebufferOk then
      framebufferLoop env (i + 1) k
        { p with framebuffers := p.framebuffers.set i true }
    else
      (false, p.setError "Failed to create framebuffer")

/-- Embeds `Pipeline::createFramebuffers`: resizes the vector to the
swapchain image count, then creates one framebuffer per image. -/
def Pipeline.createFramebuffers (p : Pipeline) (env : GpuEnv) :
    Bool × Pipeline :=
  framebufferLoop env 0 env.swapChainImageCount
    { p with framebuffers := List.replicate env.swapChainImageCount false }

/-- The `for` loop of `Pipeline::createCommandPools`. -/
def commandPoolLoop (env : GpuEnv) : Nat → Nat → Pipeline → Bool × Pipeline
  | _, 0, p => (true, p)
  | i, k + 1, p =>
    if env.commandPoolOk then
      commandPoolLoop env (i + 1) k
        { p with commandPools := p.commandPools.set i true }
    else
      (false, p.setError "Failed to create command pool")

/-- Embeds `Pipeline::createCommandPools` (one pool per frame in flight). -/
def Pipeline.createCommandPools (p : Pipeline) (env : GpuEnv) (N : Nat) :
    Bool × Pipeline :=
  commandPoolLoop env 0 N { p with commandPools := List.replicate N false }

/-- The `for` loop of `Pipeline::createCommandBuffers`. -/
def commandBufferLoop (env : GpuEnv) : Nat → Nat → Pipeline → Bool × Pipeline
  | _, 0, p => (true, p)
  | i, k + 1, p =>
    if env.commandBufferOk then
      commandBufferLoop env (i + 1) k
        { p with commandBuffers := p.commandBuffers.set i (some CmdState.initial) }
    else
      (false, p.setError "Failed to allocate command buffers")

/-- Embeds `Pipeline::createCommandBuffers` (one primary buffer per slot,
allocated from that slot's pool). -/
def Pipeline.createCommandBuffers (p : Pipeline) (env : GpuEnv) (N : Nat) :
    Bool × Pipeline :=
  commandBufferLoop env 0 N
    { p with commandBuffers := List.replicate N none }

/-- The `for` loop of `Pipeline::createUniformBuffers`: per slot, create
the buffer, allocate its memory, bind it and persistently map it. -/
def uniformLoop (env : GpuEnv) : Nat → Nat → Pipeline → Bool × Pipeline
  | _, 0, p => (true, p)
  | i, k + 1, p =>
    if env.bufferOk then
      let p1 := { p with uniformBuffers := p.uniformBuffers.set i true }
      if env.memoryOk then
        uniformLoop env (i + 1) k
          { p1 with
            uniformBuffersMemory := p1.uniformBuffersMemory.set i true
            uniformBuffersMapped := p1.uniformBuffersMapped.set i true }
      else
        (false, p1.setError "Failed to allocate uniform buffer memory")
    else
      (false, p.setError "Failed to create uniform buffer")

/-- Embeds `Pipeline::createUniformBuffers`. -/
def Pipeline.createUniformBuffers (p : Pipeline) (env : GpuEnv) (N : Nat) :
    Bool × Pipeline :=
  uniformLoop env 0 N
    { p with
      uniformBuffers := List.replicate N false
      uniformBuffersMemory := List.replicate N false
      uniformBuffersMapped := List.replicate N false }

/-- Embeds `Pipeline::createDescriptorPool`. -/
def Pipeline.createDescriptorPool (p : Pipeline) (env : GpuEnv) :
    Bool × Pipeline :=
  if env.descriptorPoolOk then
    (true, { p with descriptorPool := true })
  else
    (false, p.setError "Failed to create descriptor pool")

/-- Embeds `Pipeline::createDescriptorSets`: resize, then one bulk
`vkAllocateDescriptorSets` call fills every slot; the subsequent
`vkUpdateDescriptorSets` loop writes the (stable) buffer bindings and
cannot fail. -/
def Pipeline.createDescriptorSets (p : Pipeline) (env : GpuEnv) (N : Nat) :
    Bool × Pipeline :=
  let p1 := { p with descriptorSets := List.replicate N false }
  if env.descriptorSetsOk then
    (true, { p1 with descriptorSets := List.replicate N true })
  else
    (false, p1.setError "Failed to allocate descriptor sets")

/-- The `for` loop of `Pipeline::createSyncObjects`: per slot, create the
image-available semaphore, render-finished semaphore and the fence, the
fence with `VK_FENCE_CREATE_SIGNALED_BIT` (encoded `some true`). -/
def syncLoop (env : GpuEnv) : Nat → Nat → Pipeline → Bool × Pipeline
  | _, 0, p => (true, p)
  | i, k + 1, p =>
    if env.imageSemaphoreOk then
      let p1 := { p with
        imageAvailableSemaphores := p.imageAvailableSemaphores.set i true }
      if env.renderSemaphoreOk then
        let p2 := { p1 with
          renderFinishedSemaphores := p1.renderFinishedSemaphores.set i true }
        if env.fenceOk then
          syncLoop env (i + 1) k
            { p2 with inFlightFences := p2.inFlightFences.set i (some true) }
        else
          (false, p2.setError "Failed to create synchronization objects")
      else
        (false, p1.setError "Failed to create synchronization objects")
    else
      (false, p.setError "Failed to create synchronization objects")

/-- Embeds `Pipeline::createSyncObjects`. -/
def Pipeline.createSyncObjects (p : Pipeline) (env : GpuEnv) (N : Nat) :
    Bool × Pipeline :=
  syncLoop env 0 N
    { p with
      imageAvailableSemaphores := List.replicate N false
      renderFinishedSemaphores := List.replicate N false
      inFlightFences := List.replicate N none }

/-- Embeds `Pipeline::createVertexBuffer`, which is a stub kept for API
compatibility ("Vertex buffer creation is now handled by World class"). -/
def Pipeline.createVertexBuffer (p : Pipeline) : Bool × Pipeline :=
  (true, p)

/-- One step of the short-circuiting `&&` chain in `Pipeline::initialize`:
run the next build step only if everything so far succeeded. -/
def buildStep (f : Pipeline → Bool × Pipeline) (r : Bool × Pipeline) :
    Bool × Pipeline :=
  if r.1 then f r.2 else r

/-- The ordered build sequence of `Pipeline::initialize` (the body of the
big `&&` chain), from descriptor layout down to the vertex-buffer stub. -/
def Pipeline.buildSteps (p : Pipeline) (env : GpuEnv) (N : Nat) :
    Bool × Pipeline :=
  buildStep (fun q => q.createVertexBuffer)
    (buildStep (fun q => q.createSyncObjects env N)
      (buildStep (fun q => q.createDescriptorSets env N)
        (buildStep (fun q => q.createDescriptorPool env)
          (buildStep (fun q => q.createUniformBuffers env N)
            (buildStep (fun q => q.createCommandBuffers env N)
              (buildStep (fun q => q.createCommandPools env N)
                (buildStep (fun q => q.createFramebuffers env)
                  (buildStep (fun q => q.createGraphicsPipeline env)
                    (buildStep (fun q => q.createRenderPass env)
                      (p.createDescriptorSetLayout env))))))))))

/-- Embeds `Pipeline::initialize`: usage-error when not `UNINITIALIZED`,
otherwise the build chain; only on full success does the state become
`READY`. -/
def Pipeline.initialise (p : Pipeline) (env : GpuEnv) (N : Nat) :
    Bool × Pipeline :=
  if p.state ≠ State.UNINITIALIZED then
    (false, p.setError "Pipeline is already initialized")
  else
    let r := p.buildSteps env N
    if r.1 then (true, { r.2 with state := State.READY }) else (false, r.2)

/-- Embeds `Pipeline::beginFrame`.  Returns the C++ `bool`, the new
member state, and the ordered GPU calls performed.  The fence wait and
the image acquisition happen first; a stale surface
(`VK_ERROR_OUT_OF_DATE_KHR`) moves the machine to `RECREATING` and
returns `false` before the fence reset / command-buffer reset; a
suboptimal acquisition is treated as success. -/
def Pipeline.beginFrame (p : Pipeline) (env : GpuEnv) :
    Bool × Pipeline × List Event :=
  if p.state ≠ State.READY then
    (false, p.setError "Pipeline is not in ready state", [])
  else
    let cf := p.currentFrame
    let tr0 := [Event.evWaitFence cf, Event.evAcquire cf]
    if env.acquireResult = VkResult.errorOutOfDateKHR then
      (false, { p with state := State.RECREATING }, tr0)
    else if env.acquireResult ≠ VkResult.success ∧
        env.acquireResult ≠ VkResult.suboptimalKHR then
      (false, p.setError "Failed to acquire swap chain image", tr0)
    else
      let p1 := { p with
        currentImageIndex := env.acquiredImageIndex
        inFlightFences := p.inFlightFences.set cf (some false)
        commandBuffers := p.commandBuffers.set cf (some CmdState.initial) }
      let tr1 := tr0 ++ [Event.evResetFence cf, Event.evResetCommandBuffer cf]
      if env.beginCommandBufferOk then
        let p2 := { p1 with
          commandBuffers := p1.commandBuffers.set cf (some CmdState.recording) }
        (true, p2, tr1 ++
          [Event.evBeginCommandBuffer cf,
           Event.evBeginRenderPass env.acquiredImageIndex,
           Event.evBindPipeline cf, Event.evUpdateUniform cf,
           Event.evBindDescriptorSets cf])
      else
        (false, p1.setError "Failed to begin recording command buffer",
          tr1 ++ [Event.evBeginCommandBuffer cf])

/-- Embeds `Pipeline::endFrame`: close the render pass and the recording,
submit with the slot's fence, present; a stale or suboptimal present
result sets `RECREATING` but still falls through to the slot-index
advance and returns `true`.  Fatal record/submit/present failures return
`false` before the advance. -/
def Pipeline.endFrame (p : Pipeline) (env : GpuEnv) (N : Nat) :
    Bool × Pipeline × List Event :=
  if p.state ≠ State.READY then
    (false, p.setError "Pipeline is not in ready state", [])
  else
    let cf := p.currentFrame
    let tr0 := [Event.evEndRenderPass cf, Event.evEndCommandBuffer cf]
    if env.endCommandBufferOk then
      let p1 := { p with
        commandBuffers := p.commandBuffers.set cf (some CmdState.executable) }
      if env.queueSubmitOk then
        let tr1 := tr0 ++
          [Event.evQueueSubmit cf, Event.evPresent p1.currentImageIndex]
        if env.presentResult = VkResult.errorOutOfDateKHR ∨
            env.presentResult = VkResult.suboptimalKHR then
          (true,
            { p1 with state := State.RECREATING, currentFrame := (cf + 1) % N },
            tr1)
        else if env.presentResult ≠ VkResult.success then
          (false, p1.setError "Failed to present swap chain image", tr1)
        else
          (true, { p1 with currentFrame := (cf + 1) % N }, tr1)
      else
        (false, p1.setError "Failed to submit draw command buffer",
          tr0 ++ [Event.evQueueSubmit cf])
    else
      (false, p.setError "Failed to record command buffer", tr0)

/-- Destroy events of one indexed handle vector: one event per live entry,
in index order (the shape of each destruction `for` loop in
`Pipeline::cleanup`). -/
def destroyEventsAux (mk : Nat → Event) (held : Nat → Bool) :
    Nat → Nat → List Event
  | _, 0 => []
  | i, k + 1 => (if held i then [mk i] else []) ++ destroyEventsAux mk held (i + 1) k

/-- The uniform-buffer teardown loop of `Pipeline::cleanup`: per slot,
unmap, destroy the buffer, free the memory. -/
def uniformCleanupEvents (p : Pipeline) : Nat → Nat → List Event
  | _, 0 => []
  | i, k + 1 =>
    (if p.uniformBuffersMapped.getD i false then [Event.evUnmapUniform i] else []) ++
    (if p.uniformBuffers.getD i false then [Event.evDestroyUniformBuffer i] else []) ++
    (if p.uniformBuffersMemory.getD i false then [Event.evFreeUniformMemory i] else []) ++
    uniformCleanupEvents p (i + 1) k

/-- The sync-object teardown loop of `Pipeline::cleanup`: it iterates the
frame-in-flight count, destroying whatever entries the vectors hold. -/
def syncCleanupEvents (p : Pipeline) : Nat → Nat → List Event
  | _, 0 => []
  | i, k + 1 =>
    (if p.imageAvailableSemaphores.getD i false then
      [Event.evDestroyImageAvailableSemaphore i] else []) ++
    (if p.renderFinishedSemaphores.getD i false then
      [Event.evDestroyRenderFinishedSemaphore i] else []) ++
    (if (p.inFlightFences.getD i none).isSome then [Event.evDestroyFence i] else []) ++
    syncCleanupEvents p (i + 1) k

/-- Embeds `Pipeline::cleanup`, keeping the exact destruction order of the
source: device-idle wait, uniform buffers, descriptor pool, descriptor
set layout, vertex buffer and its memory, sync objects, command pools,
framebuffers, graphics pipeline, pipeline layout, render pass; then all
vectors are cleared and the state reset to `UNINITIALIZED`. -/
def Pipeline.cleanup (p : Pipeline) (N : Nat) : Pipeline × List Event :=
  let trUniform := uniformCleanupEvents p 0 p.uniformBuffers.length
  let trPool := if p.descriptorPool then [Event.evDestroyDescriptorPool] else []
  let trLayout :=
    if p.descriptorSetLayout then [Event.evDestroyDescriptorSetLayout] else []
  let trVB := if p.vertexBuffer then [Event.evDestroyVertexBuffer] else []
  let trVBM := if p.vertexBufferMemory then [Event.evFreeVertexMemory] else []
  let trSync := syncCleanupEvents p 0 N
  let trPools := destroyEventsAux Event.evDestroyCommandPool
    (fun i => p.commandPools.getD i false) 0 p.commandPools.length
  let trFbs := destroyEventsAux Event.evDestroyFramebuffer
    (fun i => p.framebuffers.getD i false) 0 p.framebuffers.length
  let trPipe := if p.graphicsPipeline then [Event.evDestroyPipeline] else []
  let trPL := if p.pipelineLayout then [Event.evDestroyPipelineLayout] else []
  let trRP := if p.renderPass then [Event.evDestroyRenderPass] else []
  ({ p with
      uniformBuffers := [], uniformBuffersMemory := [], uniformBuffersMapped := []
      descriptorPool := false, descriptorSetLayout := false
      vertexBuffer := false, vertexBufferMemory := false
      framebuffers := []
      graphicsPipeline := false, pipelineLayout := false, renderPass := false
      imageAvailableSemaphores := [], renderFinishedSemaphores := []
      inFlightFences := [], commandBuffers := [], commandPools := []
      descriptorSets := []
      state := State.UNINITIALIZED },
    Event.evWaitIdle :: (trUniform ++ trPool ++ trLayout ++ trVB ++ trVBM ++
      trSync ++ trPools ++ trFbs ++ trPipe ++ trPL ++ trRP))

/-- Embeds `Pipeline::recreateIfNeeded`: a no-op unless `RECREATING`;
otherwise wait for device idle, destroy the (moved-out) framebuffers
explicitly up front, then full `cleanup` followed by full initialize. -/
def Pipeline.recreateIfNeeded (p : Pipeline) (env : GpuEnv) (N : Nat) :
    Bool × Pipeline × List Event :=
  if p.state ≠ State.RECREATING then
    (true, p, [])
  else
    let oldFbs := p.framebuffers
    let trFbs := destroyEventsAux Event.evDestroyFramebuffer
      (fun i => oldFbs.getD i false) 0 oldFbs.length
    let r := Pipeline.cleanup { p with framebuffers := [] } N
    let r2 := r.1.initialise env N
    (r2.1, r2.2, Event.evWaitIdle :: (trFbs ++ r.2))

/-- The five methods the caller drives the state machine with. -/
inductive ApiCall where
  | callInit
  | callCleanup
  | callBeginFrame
  | callEndFrame
  | callRecreate
  deriving DecidableEq, Repr

/-- The pipeline state after one driven call, for statements quantified
over every operation of the interface. -/
def runCall (c : ApiCall) (env : GpuEnv) (N : Nat) (p : Pipeline) : Pipeline :=
  match c with
  | ApiCall.callInit => (p.initialise env N).2
  | ApiCall.callCleanup => (p.cleanup N).1
  | ApiCall.callBeginFrame => (p.beginFrame env).2.1
  | ApiCall.callEndFrame => (p.endFrame env N).2.1
  | ApiCall.callRecreate => (p.recreateIfNeeded env N).2.1

/-- The standard right-handed perspective projection matrix (the formula
of `glm::perspective`, an external collaborator), column-major as in glm:
`entry c r` is column `c`, row `r`.  The trigonometric part is abstracted
by its value `tanHalfFovy = tan(fovy/2)`, so the matrix lives over `ℚ`. -/
def perspectiveRH (tanHalfFovy aspect zNear zFar : ℚ) : Fin 4 → Fin 4 → ℚ :=
  fun c r =>
    if c = 0 ∧ r = 0 then 1 / (aspect * tanHalfFovy)
    else if c = 1 ∧ r = 1 then 1 / tanHalfFovy
    else if c = 2 ∧ r = 2 then -((zFar + zNear) / (zFar - zNear))
    else if c = 2 ∧ r = 3 then -1
    else if c = 3 ∧ r = 2 then -((2 * zFar * zNear) / (zFar - zNear))
    else 0

/-- Embeds the projection computation of `Pipeline::updateUniformBuffer`:
`aspect = extent.width / extent.height`, then
`glm::perspective(glm::radians(45), aspect, 0.1, 1000)` followed by
`proj[1][1] *= -1` (the Vulkan Y flip).  `tanHalfFovy` abstracts
`tan(radians(45)/2)`; the near plane `0.1` is the exact rational `1/10`. -/
def updateUniformProj (tanHalfFovy w h : ℚ) : Fin 4 → Fin 4 → ℚ :=
  let aspect := w / h
  let proj := perspectiveRH tanHalfFovy aspect (1 / 10) 1000
  fun c r => if c = 1 ∧ r = 1 then -1 * proj c r else proj c r

/-- The fully-built member state `Pipeline::initialize` produces on
success, starting from `p`: every handle held, every per-slot vector
filled, one framebuffer per swapchain image, every fence created
signaled. -/
def builtPipeline (p : Pipeline) (env : GpuEnv) (N : Nat) : Pipeline :=
  { p with
    descriptorSetLayout := true
    renderPass := true
    pipelineLayout := true
    graphicsPipeline := true
    descriptorPool := true
    framebuffers := List.replicate env.swapChainImageCount true
    commandPools := List.replicate N true
    commandBuffers := List.replicate N (some CmdState.initial)
    uniformBuffers := List.replicate N true
    uniformBuffersMemory := List.replicate N true
    uniformBuffersMapped := List.replicate N true
    descriptorSets := List.replicate N true
    imageAvailableSemaphores := List.replicate N true
    renderFinishedSemaphores := List.replicate N true
    inFlightFences := List.replicate N (some true) }

/-- A GPU environment in which every call succeeds: three swapchain
images, image index 0 acquired. -/
def envOk : GpuEnv where
  descriptorSetLayoutOk := true
  renderPassOk := true
  vertShaderOk := true
  fragShaderOk := true
  pipelineLayoutOk := true
  graphicsPipelineOk := true
  framebufferOk := true
  commandPoolOk := true
  commandBufferOk := true
  bufferOk := true
  memoryOk := true
  descriptorPoolOk := true
  descriptorSetsOk := true
  imageSemaphoreOk := true
  renderSemaphoreOk := true
  fenceOk := true
  beginCommandBufferOk := true
  endCommandBufferOk := true
  queueSubmitOk := true
  acquireResult := VkResult.success
  acquiredImageIndex := 0
  presentResult := VkResult.success
  swapChainImageCount := 3

/-- Failure injection for the descriptor-pool build stage. -/
def envPoolFail : GpuEnv := { envOk with descriptorPoolOk := false }

/-- An environment whose queue submission fails fatally. -/
def envSubmitFail : GpuEnv := { envOk with queueSubmitOk := false }

/-- An environment whose image acquisition reports a stale surface. -/
def envAcquireStale : GpuEnv :=
  { envOk with acquireResult := VkResult.errorOutOfDateKHR }

/-- An environment whose presentation reports a stale surface. -/
def envPresentStale : GpuEnv :=
  { envOk with presentResult := VkResult.errorOutOfDateKHR }

/-- The concrete `READY` pipeline obtained by a successful initialize
with two frames in flight against `envOk`. -/
def pBuilt : Pipeline := (Pipeline.start.initialise envOk 2).2

/-- The concrete `RECREATING` pipeline obtained from `pBuilt` after a
stale-surface image acquisition. -/
def pStale : Pipeline := (pBuilt.beginFrame envAcquireStale).2.1

/-! ### Helper lemmas about the build loops -/

/-- A list whose first `n` positions all hold `v` and whose length is `n`
is `List.replicate n v`. -/
theorem eq_replicate_of_filled {α : Type} (xs : List α) (v : α) (n : Nat)
    (hlen : xs.length = n) (h : ∀ j : Nat, j < n → xs[j]? = some v) :
    xs = List.replicate n v := by
  apply List.ext_getElem?
  intro j
  by_cases hj : j < n
  · rw [h j hj, List.getElem?_replicate]
    simp [hj]
  · rw [List.getElem?_eq_none (by omega : xs.length ≤ j), List.getElem?_replicate]
    simp [hj]

/-- The framebuffer loop touches only the framebuffer vector and the
error string. -/
theorem framebufferLoop_frame (env : GpuEnv) :
    ∀ k i p, (framebufferLoop env i k p).2 =
      { p with
        framebuffers := (framebufferLoop env i k p).2.framebuffers
        lastError := (framebufferLoop env i k p).2.lastError } := by
  intro k
  induction k with
  | zero => intro i p; rfl
  | succ k ih =>
    intro i p
    by_cases h : env.framebufferOk
    · simp only [framebufferLoop, if_pos h]
      rw [ih (i + 1) { p with framebuffers := p.framebuffers.set i true }]
    · simp [framebufferLoop, h, Pipeline.setError]

/-- The framebuffer loop preserves the framebuffer-vector length. -/
theorem framebufferLoop_len (env : GpuEnv) :
    ∀ k i p, (framebufferLoop env i k p).2.framebuffers.length =
      p.framebuffers.length := by
  intro k
  induction k with
  | zero => intro i p; rfl
  | succ k ih =>
    intro i p
    by_cases h : env.framebufferOk
    · simp only [framebufferLoop, if_pos h]
      rw [ih (i + 1) { p with framebuffers := p.framebuffers.set i true }]
      simp
    · simp [framebufferLoop, h, Pipeline.setError]

/-- On success the framebuffer loop has created the entries it visited. -/
theorem framebufferLoop_filled (env : GpuEnv) :
    ∀ k i p, p.framebuffers.length = i + k →
      (∀ j : Nat, j < i → p.framebuffers[j]? = some true) →
      (framebufferLoop env i k p).1 = true →
      ∀ j : Nat, j < i + k →
        (framebufferLoop env i k p).2.framebuffers[j]? = some true := by
  intro k
  induction k with
  | zero =>
    intro i p _ hpre _ j hj
    exact hpre j (by omega)
  | succ k ih =>
    intro i p hlen hpre hok j hj
    by_cases h : env.framebufferOk
    · simp only [framebufferLoop, if_pos h] at hok ⊢
      refine ih (i + 1) { p with framebuffers := p.framebuffers.set i true }
        (by simp [hlen]; omega) ?_ hok j (by omega)
      intro j' hj'
      by_cases hji : j' = i
      · subst hji
        exact List.getElem?_set_eq_of_lt true (by omega)
      · rw [List.getElem?_set_ne (by omega)]
        exact hpre j' (by omega)
    · simp [framebufferLoop, h] at hok

/-- The command-pool loop touches only the pool vector and the error
string. -/
theorem commandPoolLoop_frame (env : GpuEnv) :
    ∀ k i p, (commandPoolLoop env i k p).2 =
      { p with
        commandPools := (commandPoolLoop env i k p).2.commandPools
        lastError := (commandPoolLoop env i k p).2.lastError } := by
  intro k
  induction k with
  | zero => intro i p; rfl
  | succ k ih =>
    intro i p
    by_cases h : env.commandPoolOk
    · simp only [commandPoolLoop, if_pos h]
      rw [ih (i + 1) { p with commandPools := p.commandPools.set i true }]
    · simp [commandPoolLoop, h, Pipeline.setError]

/-- The command-pool loop preserves the pool-vector length. -/
theorem commandPoolLoop_len (env : GpuEnv) :
    ∀ k i p, (commandPoolLoop env i k p).2.commandPools.length =
      p.commandPools.length := by
  intro k
  induction k with
  | zero => intro i p; rfl
  | succ k ih =>
    intro i p
    by_cases h : env.commandPoolOk
    · simp only [commandPoolLoop, if_pos h]
      rw [ih (i + 1) { p with commandPools := p.commandPools.set i true }]
      simp
    · simp [commandPoolLoop, h, Pipeline.setError]

/-- On success the command-pool loop has created the entries it visited. -/
theorem commandPoolLoop_filled (env : GpuEnv) :
    ∀ k i p, p.commandPools.length = i + k →
      (∀ j : Nat, j < i → p.commandPools[j]? = some true) →
      (commandPoolLoop env i k p).1 = true →
      ∀ j : Nat, j < i + k →
        (commandPoolLoop env i k p).2.commandPools[j]? = some true := by
  intro k
  induction k with
  | zero =>
    intro i p _ hpre _ j hj
    exact hpre j (by omega)
  | succ k ih =>
    intro i p hlen hpre hok j hj
    by_cases h : env.commandPoolOk
    · simp only [commandPoolLoop, if_pos h] at hok ⊢
      refine ih (i + 1) { p with commandPools := p.commandPools.set i true }
        (by simp [hlen]; omega) ?_ hok j (by omega)
      intro j' hj'
      by_cases hji : j' = i
      · subst hji
        exact List.getElem?_set_eq_of_lt true (by omega)
      · rw [List.getElem?_set_ne (by omega)]
        exact hpre j' (by omega)
    · simp [commandPoolLoop, h] at hok

/-- The command-buffer loop touches only the buffer vector and the error
string. -/
theorem commandBufferLoop_frame (env : GpuEnv) :
    ∀ k i p, (commandBufferLoop env i k p).2 =
      { p with
        commandBuffers := (commandBufferLoop env i k p).2.commandBuffers
        lastError := (commandBufferLoop env i k p).2.lastError } := by
  intro k
  induction k with
  | zero => intro i p; rfl
  | succ k ih =>
    intro i p
    by_cases h : env.commandBufferOk
    · simp only [commandBufferLoop, if_pos h]
      rw [ih (i + 1)
        { p with commandBuffers := p.commandBuffers.set i (some CmdState.initial) }]
    · simp [commandBufferLoop, h, Pipeline.setError]

/-- The command-buffer loop preserves the buffer-vector length. -/
theorem commandBufferLoop_len (env : GpuEnv) :
    ∀ k i p, (commandBufferLoop env i k p).2.commandBuffers.length =
      p.commandBuffers.length := by
  intro k
  induction k with
  | zero => intro i p; rfl
  | succ k ih =>
    intro i p
    by_cases h : env.commandBufferOk
    · simp only [commandBufferLoop, if_pos h]
      rw [ih (i + 1)
        { p with commandBuffers := p.commandBuffers.set i (some CmdState.initial) }]
      simp
    · simp [commandBufferLoop, h, Pipeline.setError]

/-- On success the command-buffer loop has allocated the entries it
visited. -/
theorem commandBufferLoop_filled (env : GpuEnv) :
    ∀ k i p, p.commandBuffers.length = i + k →
      (∀ j : Nat, j < i → p.commandBuffers[j]? = some (some CmdState.initial)) →
      (commandBufferLoop env i k p).1 = true →
      ∀ j : Nat, j < i + k →
        (commandBufferLoop env i k p).2.commandBuffers[j]? =
          some (some CmdState.initial) := by
  intro k
  induction k with
  | zero =>
    intro i p _ hpre _ j hj
    exact hpre j (by omega)
  | succ k ih =>
    intro i p hlen hpre hok j hj
    by_cases h : env.commandBufferOk
    · simp only [commandBufferLoop, if_pos h] at hok ⊢
      refine ih (i + 1)
        { p with commandBuffers := p.commandBuffers.set i (some CmdState.initial) }
        (by simp [hlen]; omega) ?_ hok j (by omega)
      intro j' hj'
      by_cases hji : j' = i
      · subst hji
        exact List.getElem?_set_eq_of_lt (some CmdState.initial) (by omega)
      · rw [List.getElem?_set_ne (by omega)]
        exact hpre j' (by omega)
    · simp [commandBufferLoop, h] at hok

/-- The uniform-buffer loop touches only the three uniform vectors and
the error string. -/
theorem uniformLoop_frame (env : GpuEnv) :
    ∀ k i p, (uniformLoop env i k p).2 =
      { p with
        uniformBuffers := (uniformLoop env i k p).2.uniformBuffers
        uniformBuffersMemory := (uniformLoop env i k p).2.uniformBuffersMemory
        uniformBuffersMapped := (uniformLoop env i k p).2.uniformBuffersMapped
        lastError := (uniformLoop env i k p).2.lastError } := by
  intro k
  induction k with
  | zero => intro i p; rfl
  | succ k ih =>
    intro i p
    by_cases hb : env.bufferOk
    · by_cases hm : env.memoryOk
      · simp only [uniformLoop, if_pos hb, if_pos hm]
        rw [ih (i + 1)
          { p with
            uniformBuffers := p.uniformBuffers.set i true
            uniformBuffersMemory := p.uniformBuffersMemory.set i true
            uniformBuffersMapped := p.uniformBuffersMapped.set i true }]
      · simp [uniformLoop, hb, hm, Pipeline.setError]
    · simp [uniformLoop, hb, Pipeline.setError]

/-- The uniform-buffer loop preserves the lengths of the three uniform
vectors. -/
theorem uniformLoop_len (env : GpuEnv) :
    ∀ k i p, (uniformLoop env i k p).2.uniformBuffers.length =
        p.uniformBuffers.length ∧
      (uniformLoop env i k p).2.uniformBuffersMemory.length =
        p.uniformBuffersMemory.length ∧
      (uniformLoop env i k p).2.uniformBuffersMapped.length =
        p.uniformBuffersMapped.length := by
  intro k
  induction k with
  | zero => intro i p; exact ⟨rfl, rfl, rfl⟩
  | succ k ih =>
    intro i p
    by_cases hb : env.bufferOk
    · by_cases hm : env.memoryOk
      · simp only [uniformLoop, if_pos hb, if_pos hm]
        have := ih (i + 1)
          { p with
            uniformBuffers := p.uniformBuffers.set i true
            uniformBuffersMemory := p.uniformBuffersMemory.set i true
            uniformBuffersMapped := p.uniformBuffersMapped.set i true }
        simpa using this
      · simp [uniformLoop, hb, hm, Pipeline.setError]
    · simp [uniformLoop, hb, Pipeline.setError]

/-- On success the uniform-buffer loop has created, allocated and mapped
the entries it visited. -/
theorem uniformLoop_filled (env : GpuEnv) :
    ∀ k i p, p.uniformBuffers.length = i + k →
      p.uniformBuffersMemory.length = i + k →
      p.uniformBuffersMapped.length = i + k →
      (∀ j : Nat, j < i → p.uniformBuffers[j]? = some true ∧
        p.uniformBuffersMemory[j]? = some true ∧
        p.uniformBuffersMapped[j]? = some true) →
      (uniformLoop env i k p).1 = true →
      ∀ j : Nat, j < i + k →
        (uniformLoop env i k p).2.uniformBuffers[j]? = some true ∧
        (uniformLoop env i k p).2.uniformBuffersMemory[j]? = some true ∧
        (uniformLoop env i k p).2.uniformBuffersMapped[j]? = some true := by
  intro k
  induction k with
  | zero =>
    intro i p _ _ _ hpre _ j hj
    exact hpre j (by omega)
  | succ k ih =>
    intro i p hl1 hl2 hl3 hpre hok j hj
    by_cases hb : env.bufferOk
    · by_cases hm : env.memoryOk
      · simp only [uniformLoop, if_pos hb, if_pos hm] at hok ⊢
        refine ih (i + 1)
          { p with
            uniformBuffers := p.uniformBuffers.set i true
            uniformBuffersMemory := p.uniformBuffersMemory.set i true
            uniformBuffersMapped := p.uniformBuffersMapped.set i true }
          (by simp [hl1]; omega) (by simp [hl2]; omega) (by simp [hl3]; omega)
          ?_ hok j (by omega)
        intro j' hj'
        by_cases hji : j' = i
        · subst hji
          exact ⟨List.getElem?_set_eq_of_lt true (by omega),
            List.getElem?_set_eq_of_lt true (by omega),
            List.getElem?_set_eq_of_lt true (by omega)⟩
        · refine ⟨?_, ?_, ?_⟩ <;> rw [List.getElem?_set_ne (by omega)]
          · exact (hpre j' (by omega)).1
          · exact (hpre j' (by omega)).2.1
          · exact (hpre j' (by omega)).2.2
      · simp [uniformLoop, hb, hm] at hok
    · simp [uniformLoop, hb] at hok

/-- The sync-object loop touches only the two semaphore vectors, the
fence vector and the error string. -/
theorem syncLoop_frame (env : GpuEnv) :
    ∀ k i p, (syncLoop env i k p).2 =
      { p with
        imageAvailableSemaphores := (syncLoop env i k p).2.imageAvailableSemaphores
        renderFinishedSemaphores := (syncLoop env i k p).2.renderFinishedSemaphores
        inFlightFences := (syncLoop env i k p).2.inFlightFences
        lastError := (syncLoop env i k p).2.lastError } := by
  intro k
  induction k with
  | zero => intro i p; rfl
  | succ k ih =>
    intro i p
    by_cases h1 : env.imageSemaphoreOk
    · by_cases h2 : env.renderSemaphoreOk
      · by_cases h3 : env.fenceOk
        · simp only [syncLoop, if_pos h1, if_pos h2, if_pos h3]
          rw [ih (i + 1)
            { p with
              imageAvailableSemaphores := p.imageAvailableSemaphores.set i true
              renderFinishedSemaphores := p.renderFinishedSemaphores.set i true
              inFlightFences := p.inFlightFences.set i (some true) }]
        · simp [syncLoop, h1, h2, h3, Pipeline.setError]
      · simp [syncLoop, h1, h2, Pipeline.setError]
    · simp [syncLoop, h1, Pipeline.setError]

/-- The sync-object loop preserves the lengths of its three vectors. -/
theorem syncLoop_len (env : GpuEnv) :
    ∀ k i p, (syncLoop env i k p).2.imageAvailableSemaphores.length =
        p.imageAvailableSemaphores.length ∧
      (syncLoop env i k p).2.renderFinishedSemaphores.length =
        p.renderFinishedSemaphores.length ∧
      (syncLoop env i k p).2.inFlightFences.length = p.inFlightFences.length := by
  intro k
  induction k with
  | zero => intro i p; exact ⟨rfl, rfl, rfl⟩
  | succ k ih =>
    intro i p
    by_cases h1 : env.imageSemaphoreOk
    · by_cases h2 : env.renderSemaphoreOk
      · by_cases h3 : env.fenceOk
        · simp only [syncLoop, if_pos h1, if_pos h2, if_pos h3]
          have := ih (i + 1)
            { p with
              imageAvailableSemaphores := p.imageAvailableSemaphores.set i true
              renderFinishedSemaphores := p.renderFinishedSemaphores.set i true
              inFlightFences := p.inFlightFences.set i (some true) }
          simpa using this
        · simp [syncLoop, h1, h2, h3, Pipeline.setError]
      · simp [syncLoop, h1, h2, Pipeline.setError]
    · simp [syncLoop, h1, Pipeline.setError]

/-- On success the sync-object loop has created both semaphores and a
signaled fence for every slot it visited. -/
theorem syncLoop_filled (env : GpuEnv) :
    ∀ k i p, p.imageAvailableSemaphores.length = i + k →
      p.renderFinishedSemaphores.length = i + k →
      p.inFlightFences.length = i + k →
      (∀ j : Nat, j < i → p.imageAvailableSemaphores[j]? = some true ∧
        p.renderFinishedSemaphores[j]? = some true ∧
        p.inFlightFences[j]? = some (some true)) →
      (syncLoop env i k p).1 = true →
      ∀ j : Nat, j < i + k →
        (syncLoop env i k p).2.imageAvailableSemaphores[j]? = some true ∧
        (syncLoop env i k p).2.renderFinishedSemaphores[j]? = some true ∧
        (syncLoop env i k p).2.inFlightFences[j]? = some (some true) := by
  intro k
  induction k with
  | zero =>
    intro i p _ _ _ hpre _ j hj
    exact hpre j (by omega)
  | succ k ih =>
    intro i p hl1 hl2 hl3 hpre hok j hj
    by_cases h1 : env.imageSemaphoreOk
    · by_cases h2 : env.renderSemaphoreOk
      · by_cases h3 : env.fenceOk
        · simp only [syncLoop, if_pos h1, if_pos h2, if_pos h3] at hok ⊢
          refine ih (i + 1)
            { p with
              imageAvailableSemaphores := p.imageAvailableSemaphores.set i true
              renderFinishedSemaphores := p.renderFinishedSemaphores.set i true
              inFlightFences := p.inFlightFences.set i (some true) }
            (by simp [hl1]; omega) (by simp [hl2]; omega) (by simp [hl3]; omega)
            ?_ hok j (by omega)
          intro j' hj'
          by_cases hji : j' = i
          · subst hji
            exact ⟨List.getElem?_set_eq_of_lt true (by omega),
              List.getElem?_set_eq_of_lt true (by omega),
              List.getElem?_set_eq_of_lt (some true) (by omega)⟩
          · refine ⟨?_, ?_, ?_⟩ <;> rw [List.getElem?_set_ne (by omega)]
            · exact (hpre j' (by omega)).1
            · exact (hpre j' (by omega)).2.1
            · exact (hpre j' (by omega)).2.2
        · simp [syncLoop, h1, h2, h3] at hok
      · simp [syncLoop, h1, h2] at hok
    · simp [syncLoop, h1] at hok

/-- Successful loops never store an error message (framebuffers). -/
theorem framebufferLoop_ok_lastError (env : GpuEnv) :
    ∀ k i p, (framebufferLoop env i k p).1 = true →
      (framebufferLoop env i k p).2.lastError = p.lastError := by
  intro k
  induction k with
  | zero => intro i p _; rfl
  | succ k ih =>
    intro i p hok
    by_cases h : env.framebufferOk
    · simp only [framebufferLoop, if_pos h] at hok ⊢
      exact ih (i + 1) _ hok
    · simp [framebufferLoop, h] at hok

/-- Successful loops never store an error message (command pools). -/
theorem commandPoolLoop_ok_lastError (env : GpuEnv) :
    ∀ k i p, (commandPoolLoop env i k p).1 = true →
      (commandPoolLoop env i k p).2.lastError = p.lastError := by
  intro k
  induction k with
  | zero => intro i p _; rfl
  | succ k ih =>
    intro i p hok
    by_cases h : env.commandPoolOk
    · simp only [commandPoolLoop, if_pos h] at hok ⊢
      exact ih (i + 1) _ hok
    · simp [commandPoolLoop, h] at hok

/-- Successful loops never store an error message (command buffers). -/
theorem commandBufferLoop_ok_lastError (env : GpuEnv) :
    ∀ k i p, (commandBufferLoop env i k p).1 = true →
      (commandBufferLoop env i k p).2.lastError = p.lastError := by
  intro k
  induction k with
  | zero => intro i p _; rfl
  | succ k ih =>
    intro i p hok
    by_cases h : env.commandBufferOk
    · simp only [commandBufferLoop, if_pos h] at hok ⊢
      exact ih (i + 1) _ hok
    · simp [commandBufferLoop, h] at hok

/-- Successful loops never store an error message (uniform buffers). -/
theorem uniformLoop_ok_lastError (env : GpuEnv) :
    ∀ k i p, (uniformLoop env i k p).1 = true →
      (uniformLoop env i k p).2.lastError = p.lastError := by
  intro k
  induction k with
  | zero => intro i p _; rfl
  | succ k ih =>
    intro i p hok
    by_cases hb : env.bufferOk
    · by_cases hm : env.memoryOk
      · simp only [uniformLoop, if_pos hb, if_pos hm] at hok ⊢
        exact ih (i + 1) _ hok
      · simp [uniformLoop, hb, hm] at hok
    · simp [uniformLoop, hb] at hok

/-- Successful loops never store an error message (sync objects). -/
theorem syncLoop_ok_lastError (env : GpuEnv) :
    ∀ k i p, (syncLoop env i k p).1 = true →
      (syncLoop env i k p).2.lastError = p.lastError := by
  intro k
  induction k with
  | zero => intro i p _; rfl
  | succ k ih =>
    intro i p hok
    by_cases h1 : env.imageSemaphoreOk
    · by_cases h2 : env.renderSemaphoreOk
      · by_cases h3 : env.fenceOk
        · simp only [syncLoop, if_pos h1, if_pos h2, if_pos h3] at hok ⊢
          exact ih (i + 1) _ hok
        · simp [syncLoop, h1, h2, h3] at hok
      · simp [syncLoop, h1, h2] at hok
    · simp [syncLoop, h1] at hok

/-! ### Per-stage characterizations -/

/-- No build stage changes the state-machine state. -/
theorem createDescriptorSetLayout_state (env : GpuEnv) (p : Pipeline) :
    (p.createDescriptorSetLayout env).2.state = p.state := by
  unfold Pipeline.createDescriptorSetLayout
  split <;> rfl

/-- No build stage changes the state-machine state (render pass). -/
theorem createRenderPass_state (env : GpuEnv) (p : Pipeline) :
    (p.createRenderPass env).2.state = p.state := by
  unfold Pipeline.createRenderPass
  split <;> rfl

/-- No build stage changes the state-machine state (graphics pipeline). -/
theorem createGraphicsPipeline_state (env : GpuEnv) (p : Pipeline) :
    (p.createGraphicsPipeline env).2.state = p.state := by
  unfold Pipeline.createGraphicsPipeline
  split
  · split
    · split <;> rfl
    · rfl
  · rfl

/-- No build stage changes the state-machine state (framebuffers). -/
theorem createFramebuffers_state (env : GpuEnv) (p : Pipeline) :
    (p.createFramebuffers env).2.state = p.state := by
  unfold Pipeline.createFramebuffers
  rw [framebufferLoop_frame]

/-- No build stage changes the state-machine state (command pools). -/
theorem createCommandPools_state (env : GpuEnv) (N : Nat) (p : Pipeline) :
    (p.createCommandPools env N).2.state = p.state := by
  unfold Pipeline.createCommandPools
  rw [commandPoolLoop_frame]

/-- No build stage changes the state-machine state (command buffers). -/
theorem createCommandBuffers_state (env : GpuEnv) (N : Nat) (p : Pipeline) :
    (p.createCommandBuffers env N).2.state = p.state := by
  unfold Pipeline.createCommandBuffers
  rw [commandBufferLoop_frame]

/-- No build stage changes the state-machine state (uniform buffers). -/
theorem createUniformBuffers_state (env : GpuEnv) (N : Nat) (p : Pipeline) :
    (p.createUniformBuffers env N).2.state = p.state := by
  unfold Pipeline.createUniformBuffers
  rw [uniformLoop_frame]

/-- No build stage changes the state-machine state (descriptor pool). -/
theorem createDescriptorPool_state (env : GpuEnv) (p : Pipeline) :
    (p.createDescriptorPool env).2.state = p.state := by
  unfold Pipeline.createDescriptorPool
  split <;> rfl

/-- No build stage changes the state-machine state (descriptor sets). -/
theorem createDescriptorSets_state (env : GpuEnv) (N : Nat) (p : Pipeline) :
    (p.createDescriptorSets env N).2.state = p.state := by
  unfold Pipeline.createDescriptorSets
  split <;> rfl

/-- No build stage changes the state-machine state (sync objects). -/
theorem createSyncObjects_state (env : GpuEnv) (N : Nat) (p : Pipeline) :
    (p.createSyncObjects env N).2.state = p.state := by
  unfold Pipeline.createSyncObjects
  rw [syncLoop_frame]

/-- A failed prefix short-circuits the rest of the `&&` chain. -/
theorem buildStep_false (f : Pipeline → Bool × Pipeline) (q : Pipeline) :
    buildStep f (false, q) = (false, q) := rfl

/-- A successful prefix lets the next stage run. -/
theorem buildStep_true (f : Pipeline → Bool × Pipeline) (q : Pipeline) :
    buildStep f (true, q) = f q := rfl

/-- `buildStep` preserves any stage-invariant of the state field. -/
theorem buildStep_state (f : Pipeline → Bool × Pipeline)
    (hf : ∀ q, (f q).2.state = q.state) (r : Bool × Pipeline) :
    (buildStep f r).2.state = r.2.state := by
  unfold buildStep
  split
  · exact hf r.2
  · rfl

/-- The whole build chain of `Pipeline::initialize` leaves the
state-machine state unchanged (only `initialize` itself promotes it to
`READY`, after the chain). -/
theorem buildSteps_state (p : Pipeline) (env : GpuEnv) (N : Nat) :
    (p.buildSteps env N).2.state = p.state := by
  unfold Pipeline.buildSteps
  rw [buildStep_state _ (fun q => rfl)]
  rw [buildStep_state _ (fun q => createSyncObjects_state env N q)]
  rw [buildStep_state _ (fun q => createDescriptorSets_state env N q)]
  rw [buildStep_state _ (fun q => createDescriptorPool_state env q)]
  rw [buildStep_state _ (fun q => createUniformBuffers_state env N q)]
  rw [buildStep_state _ (fun q => createCommandBuffers_state env N q)]
  rw [buildStep_state _ (fun q => createCommandPools_state env N q)]
  rw [buildStep_state _ (fun q => createFramebuffers_state env q)]
  rw [buildStep_state _ (fun q => createGraphicsPipeline_state env q)]
  rw [buildStep_state _ (fun q => createRenderPass_state env q)]
  exact createDescriptorSetLayout_state env p

/-- Success-path characterization of the descriptor-set-layout stage. -/
theorem createDescriptorSetLayout_ok (env : GpuEnv) (p : Pipeline)
    (h : (p.createDescriptorSetLayout env).1 = true) :
    (p.createDescriptorSetLayout env).2 = { p with descriptorSetLayout := true } := by
  by_cases hf : env.descriptorSetLayoutOk
  · simp [Pipeline.createDescriptorSetLayout, hf]
  · simp [Pipeline.createDescriptorSetLayout, hf] at h

/-- Success-path characterization of the render-pass stage. -/
theorem createRenderPass_ok (env : GpuEnv) (p : Pipeline)
    (h : (p.createRenderPass env).1 = true) :
    (p.createRenderPass env).2 = { p with renderPass := true } := by
  by_cases hf : env.renderPassOk
  · simp [Pipeline.createRenderPass, hf]
  · simp [Pipeline.createRenderPass, hf] at h

/-- Success-path characterization of the graphics-pipeline stage. -/
theorem createGraphicsPipeline_ok (env : GpuEnv) (p : Pipeline)
    (h : (p.createGraphicsPipeline env).1 = true) :
    (p.createGraphicsPipeline env).2 =
      { p with pipelineLayout := true, graphicsPipeline := true } := by
  by_cases h1 : env.vertShaderOk && env.fragShaderOk
  · by_cases h2 : env.pipelineLayoutOk
    · by_cases h3 : env.graphicsPipelineOk
      · simp [Pipeline.createGraphicsPipeline, h1, h2, h3]
      · simp [Pipeline.createGraphicsPipeline, h1, h2, h3] at h
    · simp [Pipeline.createGraphicsPipeline, h1, h2] at h
  · simp [Pipeline.createGraphicsPipeline, h1] at h

/-- Success-path characterization of the framebuffer stage: one live
framebuffer per swapchain image. -/
theorem createFramebuffers_ok (env : GpuEnv) (p : Pipeline)
    (h : (p.createFramebuffers env).1 = true) :
    (p.createFramebuffers env).2 =
      { p with framebuffers := List.replicate env.swapChainImageCount true } := by
  unfold Pipeline.createFramebuffers at h ⊢
  set R := { p with framebuffers := List.replicate env.swapChainImageCount false }
    with hR
  have hfill := framebufferLoop_filled env env.swapChainImageCount 0 R
    (by simp [hR]) (fun j hj => absurd hj (Nat.not_lt_zero j)) h
  have hval : (framebufferLoop env 0 env.swapChainImageCount R).2.framebuffers =
      List.replicate env.swapChainImageCount true := by
    refine eq_replicate_of_filled _ true _ ?_ (fun j hj => hfill j (by omega))
    rw [framebufferLoop_len]
    simp [hR]
  have hle := framebufferLoop_ok_lastError env env.swapChainImageCount 0 R h
  rw [framebufferLoop_frame, hval, hle]

/-- Success-path characterization of the command-pool stage. -/
theorem createCommandPools_ok (env : GpuEnv) (N : Nat) (p : Pipeline)
    (h : (p.createCommandPools env N).1 = true) :
    (p.createCommandPools env N).2 =
      { p with commandPools := List.replicate N true } := by
  unfold Pipeline.createCommandPools at h ⊢
  set R := { p with commandPools := List.replicate N false } with hR
  have hfill := commandPoolLoop_filled env N 0 R
    (by simp [hR]) (fun j hj => absurd hj (Nat.not_lt_zero j)) h
  have hval : (commandPoolLoop env 0 N R).2.commandPools =
      List.replicate N true := by
    refine eq_replicate_of_filled _ true _ ?_ (fun j hj => hfill j (by omega))
    rw [commandPoolLoop_len]
    simp [hR]
  have hle := commandPoolLoop_ok_lastError env N 0 R h
  rw [commandPoolLoop_frame, hval, hle]

/-- Success-path characterization of the command-buffer stage. -/
theorem createCommandBuffers_ok (env : GpuEnv) (N : Nat) (p : Pipeline)
    (h : (p.createCommandBuffers env N).1 = true) :
    (p.createCommandBuffers env N).2 =
      { p with commandBuffers := List.replicate N (some CmdState.initial) } := by
  unfold Pipeline.createCommandBuffers at h ⊢
  set R := { p with commandBuffers := (List.replicate N none : List (Option CmdState)) }
    with hR
  have hfill := commandBufferLoop_filled env N 0 R
    (by simp [hR]) (fun j hj => absurd hj (Nat.not_lt_zero j)) h
  have hval : (commandBufferLoop env 0 N R).2.commandBuffers =
      List.replicate N (some CmdState.initial) := by
    refine eq_replicate_of_filled _ _ _ ?_ (fun j hj => hfill j (by omega))
    rw [commandBufferLoop_len]
    simp [hR]
  have hle := commandBufferLoop_ok_lastError env N 0 R h
  rw [commandBufferLoop_frame, hval, hle]

/-- Success-path characterization of the uniform-buffer stage. -/
theorem createUniformBuffers_ok (env : GpuEnv) (N : Nat) (p : Pipeline)
    (h : (p.createUniformBuffers env N).1 = true) :
    (p.createUniformBuffers env N).2 =
      { p with
        uniformBuffers := List.replicate N true
        uniformBuffersMemory := List.replicate N true
        uniformBuffersMapped := List.replicate N true } := by
  unfold Pipeline.createUniformBuffers at h ⊢
  set R := { p with
    uniformBuffers := List.replicate N false
    uniformBuffersMemory := List.replicate N false
    uniformBuffersMapped := List.replicate N false } with hR
  have hfill := uniformLoop_filled env N 0 R
    (by simp [hR]) (by simp [hR]) (by simp [hR])
    (fun j hj => absurd hj (Nat.not_lt_zero j)) h
  have hv1 : (uniformLoop env 0 N R).2.uniformBuffers = List.replicate N true := by
    refine eq_replicate_of_filled _ true _ ?_ (fun j hj => (hfill j (by omega)).1)
    rw [(uniformLoop_len env N 0 R).1]
    simp [hR]
  have hv2 : (uniformLoop env 0 N R).2.uniformBuffersMemory =
      List.replicate N true := by
    refine eq_replicate_of_filled _ true _ ?_ (fun j hj => (hfill j (by omega)).2.1)
    rw [(uniformLoop_len env N 0 R).2.1]
    simp [hR]
  have hv3 : (uniformLoop env 0 N R).2.uniformBuffersMapped =
      List.replicate N true := by
    refine eq_replicate_of_filled _ true _ ?_ (fun j hj => (hfill j (by omega)).2.2)
    rw [(uniformLoop_len env N 0 R).2.2]
    simp [hR]
  have hle := uniformLoop_ok_lastError env N 0 R h
  rw [uniformLoop_frame, hv1, hv2, hv3, hle]

/-- Success-path characterization of the descriptor-pool stage. -/
theorem createDescriptorPool_ok (env : GpuEnv) (p : Pipeline)
    (h : (p.createDescriptorPool env).1 = true) :
    (p.createDescriptorPool env).2 = { p with descriptorPool := true } := by
  by_cases hf : env.descriptorPoolOk
  · simp [Pipeline.createDescriptorPool, hf]
  · simp [Pipeline.createDescriptorPool, hf] at h

/-- Success-path characterization of the descriptor-set stage. -/
theorem createDescriptorSets_ok (env : GpuEnv) (N : Nat) (p : Pipeline)
    (h : (p.createDescriptorSets env N).1 = true) :
    (p.createDescriptorSets env N).2 =
      { p with descriptorSets := List.replicate N true } := by
  by_cases hf : env.descriptorSetsOk
  · simp [Pipeline.createDescriptorSets, hf]
  · simp [Pipeline.createDescriptorSets, hf] at h

/-- Success-path characterization of the sync-object stage: both
semaphores live and a signaled fence in every slot. -/
theorem createSyncObjects_ok (env : GpuEnv) (N : Nat) (p : Pipeline)
    (h : (p.createSyncObjects env N).1 = true) :
    (p.createSyncObjects env N).2 =
      { p with
        imageAvailableSemaphores := List.replicate N true
        renderFinishedSemaphores := List.replicate N true
        inFlightFences := List.replicate N (some true) } := by
  unfold Pipeline.createSyncObjects at h ⊢
  set R := { p with
    imageAvailableSemaphores := List.replicate N false
    renderFinishedSemaphores := List.replicate N false
    inFlightFences := (List.replicate N none : List (Option Bool)) } with hR
  have hfill := syncLoop_filled env N 0 R
    (by simp [hR]) (by simp [hR]) (by simp [hR])
    (fun j hj => absurd hj (Nat.not_lt_zero j)) h
  have hv1 : (syncLoop env 0 N R).2.imageAvailableSemaphores =
      List.replicate N true := by
    refine eq_replicate_of_filled _ true _ ?_ (fun j hj => (hfill j (by omega)).1)
    rw [(syncLoop_len env N 0 R).1]
    simp [hR]
  have hv2 : (syncLoop env 0 N R).2.renderFinishedSemaphores =
      List.replicate N true := by
    refine eq_replicate_of_filled _ true _ ?_ (fun j hj => (hfill j (by omega)).2.1)
    rw [(syncLoop_len env N 0 R).2.1]
    simp [hR]
  have hv3 : (syncLoop env 0 N R).2.inFlightFences =
      List.replicate N (some true) := by
    refine eq_replicate_of_filled _ _ _ ?_ (fun j hj => (hfill j (by omega)).2.2)
    rw [(syncLoop_len env N 0 R).2.2]
    simp [hR]
  have hle := syncLoop_ok_lastError env N 0 R h
  rw [syncLoop_frame, hv1, hv2, hv3, hle]

/-- On success the whole build chain produces exactly the fully-built
member state. -/
theorem buildStep_peel (f : Pipeline → Bool × Pipeline) (r : Bool × Pipeline)
    (h : (buildStep f r).1 = true) : r.1 = true ∧ buildStep f r = f r.2 := by
  unfold buildStep at h ⊢
  by_cases hr : r.1 = true
  · simp [hr]
  · simp [hr] at h

/-- On success the whole build chain produces exactly the fully-built
member state. -/
theorem buildSteps_ok (p : Pipeline) (env : GpuEnv) (N : Nat)
    (h : (p.buildSteps env N).1 = true) :
    (p.buildSteps env N).2 = builtPipeline p env N := by
  unfold Pipeline.buildSteps at h ⊢
  obtain ⟨h10, e11⟩ := buildStep_peel _ _ h
  obtain ⟨h9, e10⟩ := buildStep_peel _ _ h10
  obtain ⟨h8, e9⟩ := buildStep_peel _ _ h9
  obtain ⟨h7, e8⟩ := buildStep_peel _ _ h8
  obtain ⟨h6, e7⟩ := buildStep_peel _ _ h7
  obtain ⟨h5, e6⟩ := buildStep_peel _ _ h6
  obtain ⟨h4, e5⟩ := buildStep_peel _ _ h5
  obtain ⟨h3, e4⟩ := buildStep_peel _ _ h4
  obtain ⟨h2, e3⟩ := buildStep_peel _ _ h3
  obtain ⟨h1, e2⟩ := buildStep_peel _ _ h2
  rw [e11, e10, e9, e8, e7, e6, e5, e4, e3, e2]
  have d1 := createDescriptorSetLayout_ok env p h1
  rw [e2, d1] at h2
  have d2 := createRenderPass_ok env _ h2
  rw [d1]
  rw [e3, e2, d1, d2] at h3
  have d3 := createGraphicsPipeline_ok env _ h3
  rw [d2]
  rw [e4, e3, e2, d1, d2, d3] at h4
  have d4 := createFramebuffers_ok env _ h4
  rw [d3]
  rw [e5, e4, e3, e2, d1, d2, d3, d4] at h5
  have d5 := createCommandPools_ok env N _ h5
  rw [d4]
  rw [e6, e5, e4, e3, e2, d1, d2, d3, d4, d5] at h6
  have d6 := createCommandBuffers_ok env N _ h6
  rw [d5]
  rw [e7, e6, e5, e4, e3, e2, d1, d2, d3, d4, d5, d6] at h7
  have d7 := createUniformBuffers_ok env N _ h7
  rw [d6]
  rw [e8, e7, e6, e5, e4, e3, e2, d1, d2, d3, d4, d5, d6, d7] at h8
  have d8 := createDescriptorPool_ok env _ h8
  rw [d7]
  rw [e9, e8, e7, e6, e5, e4, e3, e2, d1, d2, d3, d4, d5, d6, d7, d8] at h9
  have d9 := createDescriptorSets_ok env N _ h9
  rw [d8]
  rw [e10, e9, e8, e7, e6, e5, e4, e3, e2, d1, d2, d3, d4, d5, d6, d7, d8, d9] at h10
  have d10 := createSyncObjects_ok env N _ h10
  rw [d9, d10]
  rfl

/-! ### Characterizations of the state-machine operations -/

/-- Usage-error path of `initialize`: called outside `UNINITIALIZED`, it
only records the error message. -/
theorem initialise_not_uninit (p : Pipeline) (env : GpuEnv) (N : Nat)
    (hp : p.state ≠ State.UNINITIALIZED) :
    p.initialise env N = (false, p.setError "Pipeline is already initialized") := by
  simp [Pipeline.initialise, hp]

/-- A failed `initialize` from `UNINITIALIZED` leaves the state
`UNINITIALIZED`. -/
theorem initialise_fail_state (p : Pipeline) (env : GpuEnv) (N : Nat)
    (hp : p.state = State.UNINITIALIZED)
    (h : (p.initialise env N).1 = false) :
    (p.initialise env N).2.state = State.UNINITIALIZED := by
  unfold Pipeline.initialise at h ⊢
  simp only [hp, ne_eq, not_true_eq_false, if_false, reduceIte] at h ⊢
  by_cases hr : (p.buildSteps env N).1 = true
  · simp [hr] at h
  · simp only [hr, Bool.false_eq_true, if_false, reduceIte]
    rw [buildSteps_state]
    exact hp

/-- A successful `initialize` produces exactly the fully-built member
state, promoted to `READY`. -/
theorem initialise_ok (p : Pipeline) (env : GpuEnv) (N : Nat)
    (h : (p.initialise env N).1 = true) :
    (p.initialise env N).2 = { builtPipeline p env N with state := State.READY } := by
  unfold Pipeline.initialise at h ⊢
  by_cases hp : p.state ≠ State.UNINITIALIZED
  · simp [hp] at h
  · simp only [hp, if_false, reduceIte] at h ⊢
    by_cases hr : (p.buildSteps env N).1 = true
    · simp only [hr, if_true, reduceIte]
      rw [buildSteps_ok p env N hr]
    · simp [hr] at h

/-- `initialize` can only keep the caller's state or promote to `READY`. -/
theorem initialise_state (p : Pipeline) (env : GpuEnv) (N : Nat) :
    (p.initialise env N).2.state = p.state ∨
      (p.initialise env N).2.state = State.READY := by
  unfold Pipeline.initialise
  by_cases hp : p.state ≠ State.UNINITIALIZED
  · left
    simp [hp, Pipeline.setError]
  · simp only [hp, if_false, reduceIte]
    by_cases hr : (p.buildSteps env N).1 = true
    · right
      simp [hr]
    · left
      simp only [hr, Bool.false_eq_true, if_false, reduceIte]
      exact buildSteps_state p env N

/-- `cleanup` always resets the machine to `UNINITIALIZED`. -/
theorem cleanup_state (p : Pipeline) (N : Nat) :
    (p.cleanup N).1.state = State.UNINITIALIZED := rfl

/-- The very first GPU call of `cleanup` is the device-idle wait. -/
theorem cleanup_head (p : Pipeline) (N : Nat) :
    ((p.cleanup N).2).head? = some Event.evWaitIdle := rfl

/-- The sync-object teardown loop is silent on empty vectors. -/
theorem syncCleanupEvents_empty (p : Pipeline)
    (h1 : p.imageAvailableSemaphores = [])
    (h2 : p.renderFinishedSemaphores = [])
    (h3 : p.inFlightFences = []) :
    ∀ k i, syncCleanupEvents p i k = [] := by
  intro k
  induction k with
  | zero => intro i; rfl
  | succ k ih =>
    intro i
    simp [syncCleanupEvents, h1, h2, h3, ih]

/-- `cleanup` of a pipeline that owns nothing destroys nothing and
changes nothing: only the idle wait happens. -/
theorem cleanup_clean (q : Pipeline) (hstate : q.state = State.UNINITIALIZED)
    (hdsl : q.descriptorSetLayout = false) (hdp : q.descriptorPool = false)
    (hrp : q.renderPass = false) (hpl : q.pipelineLayout = false)
    (hgp : q.graphicsPipeline = false) (hvb : q.vertexBuffer = false)
    (hvbm : q.vertexBufferMemory = false) (hfb : q.framebuffers = [])
    (hcp : q.commandPools = []) (hcb : q.commandBuffers = [])
    (hub : q.uniformBuffers = []) (hum : q.uniformBuffersMemory = [])
    (hup : q.uniformBuffersMapped = [])
    (hia : q.imageAvailableSemaphores = [])
    (hrf : q.renderFinishedSemaphores = []) (hff : q.inFlightFences = [])
    (hds : q.descriptorSets = [])
    (N : Nat) : q.cleanup N = (q, [Event.evWaitIdle]) := by
  obtain ⟨st, cf, cii, le, dsl, dp, rp, pl, gp, vb, vbm, fb, cp, cb, ub, um,
    up, ia, rfn, ff, ds⟩ := q
  simp only at hstate hdsl hdp hrp hpl hgp hvb hvbm hfb hcp hcb hub hum hup hia hrf hff hds
  subst hstate hdsl hdp hrp hpl hgp hvb hvbm hfb hcp hcb hub hum hup hia hrf hff hds
  have hs := syncCleanupEvents_empty
    ⟨State.UNINITIALIZED, cf, cii, le, false, false, false, false, false,
      false, false, [], [], [], [], [], [], [], [], [], []⟩ rfl rfl rfl N 0
  unfold Pipeline.cleanup
  rw [hs]
  simp [uniformCleanupEvents, destroyEventsAux]

/-- `cleanup` is idempotent: a second call destroys nothing and changes
nothing (only the idle wait happens again). -/
theorem cleanup_idem (p : Pipeline) (N : Nat) :
    ((p.cleanup N).1).cleanup N = ((p.cleanup N).1, [Event.evWaitIdle]) :=
  cleanup_clean (p.cleanup N).1 rfl rfl rfl rfl rfl rfl rfl rfl rfl rfl rfl
    rfl rfl rfl rfl rfl rfl rfl N

/-- All possible state transitions of `beginFrame`: the state is
preserved except on the stale-acquire path, which enters `RECREATING`. -/
theorem beginFrame_state (p : Pipeline) (env : GpuEnv) :
    (p.beginFrame env).2.1.state = p.state ∨
      (p.state = State.READY ∧ env.acquireResult = VkResult.errorOutOfDateKHR ∧
        (p.beginFrame env).2.1.state = State.RECREATING) := by
  by_cases h1 : p.state = State.READY
  · by_cases h2 : env.acquireResult = VkResult.errorOutOfDateKHR
    · right
      refine ⟨h1, h2, ?_⟩
      simp [Pipeline.beginFrame, h1, h2]
    · left
      by_cases h3 : env.acquireResult ≠ VkResult.success ∧
          env.acquireResult ≠ VkResult.suboptimalKHR
      · simp [Pipeline.beginFrame, h1, h2, h3, Pipeline.setError]
      · by_cases h4 : env.beginCommandBufferOk <;>
          simp [Pipeline.beginFrame, h1, h2, h3, h4, Pipeline.setError]
  · left
    simp [Pipeline.beginFrame, h1, Pipeline.setError]

/-- All possible state transitions of `endFrame`: the state is preserved
except on the stale/suboptimal-present path, which enters `RECREATING`. -/
theorem endFrame_state (p : Pipeline) (env : GpuEnv) (N : Nat) :
    (p.endFrame env N).2.1.state = p.state ∨
      (p.state = State.READY ∧
        (env.presentResult = VkResult.errorOutOfDateKHR ∨
          env.presentResult = VkResult.suboptimalKHR) ∧
        (p.endFrame env N).2.1.state = State.RECREATING) := by
  by_cases h1 : p.state = State.READY
  · by_cases h2 : env.endCommandBufferOk
    · by_cases h3 : env.queueSubmitOk
      · by_cases h4 : env.presentResult = VkResult.errorOutOfDateKHR ∨
            env.presentResult = VkResult.suboptimalKHR
        · right
          refine ⟨h1, h4, ?_⟩
          simp [Pipeline.endFrame, h1, h2, h3, h4]
        · left
          by_cases h5 : env.presentResult ≠ VkResult.success <;>
            simp [Pipeline.endFrame, h1, h2, h3, h4, h5, Pipeline.setError]
      · left
        simp [Pipeline.endFrame, h1, h2, h3, Pipeline.setError]
    · left
      simp [Pipeline.endFrame, h1, h2, Pipeline.setError]
  · left
    simp [Pipeline.endFrame, h1, Pipeline.setError]

/-- Membership in an `if`-guarded singleton trace segment. -/
theorem mem_ite_singleton_iff (x e : Event) (c : Prop) [Decidable c] :
    x ∈ (if c then [e] else []) ↔ (c ∧ x = e) := by
  split <;> simp_all

/-- Every live index a destruction loop visits gets its destroy event. -/
theorem destroyEventsAux_mem (mk : Nat → Event) (held : Nat → Bool) :
    ∀ k i j, i ≤ j → j < i + k → held j = true →
      mk j ∈ destroyEventsAux mk held i k := by
  intro k
  induction k with
  | zero =>
    intro i j h1 h2 _
    omega
  | succ k ih =>
    intro i j h1 h2 hj
    simp only [destroyEventsAux, List.mem_append]
    by_cases hij : j = i
    · subst hij
      left
      simp [hj]
    · right
      exact ih (i + 1) j (by omega) (by omega) hj

/-- Every event a destruction loop emits is one of its own destroy
events. -/
theorem destroyEventsAux_shape (mk : Nat → Event) (held : Nat → Bool) :
    ∀ k i x, x ∈ destroyEventsAux mk held i k → ∃ m, x = mk m := by
  intro k
  induction k with
  | zero =>
    intro i x h
    simp [destroyEventsAux] at h
  | succ k ih =>
    intro i x h
    simp only [destroyEventsAux, List.mem_append] at h
    rcases h with h | h
    · by_cases hc : held i
      · simp [hc] at h
        exact ⟨i, h⟩
      · simp [hc] at h
    · exact ih (i + 1) x h

/-- The command-pool destruction loop emits no framebuffer destroys. -/
theorem destroyEventsAux_cmdPool_no_fb (held : Nat → Bool) (k i j : Nat) :
    Event.evDestroyFramebuffer j ∉
      destroyEventsAux Event.evDestroyCommandPool held i k := by
  intro hmem
  rcases destroyEventsAux_shape Event.evDestroyCommandPool held k i _ hmem
    with ⟨m, hm⟩
  exact Event.noConfusion hm

/-- The uniform-buffer teardown loop emits no framebuffer destroys. -/
theorem uniformCleanupEvents_no_fb (p : Pipeline) :
    ∀ k i j, Event.evDestroyFramebuffer j ∉ uniformCleanupEvents p i k := by
  intro k
  induction k with
  | zero =>
    intro i j
    simp [uniformCleanupEvents]
  | succ k ih =>
    intro i j
    simp [uniformCleanupEvents, List.mem_append, mem_ite_singleton_iff, ih]

/-- The sync-object teardown loop emits no framebuffer destroys. -/
theorem syncCleanupEvents_no_fb (p : Pipeline) :
    ∀ k i j, Event.evDestroyFramebuffer j ∉ syncCleanupEvents p i k := by
  intro k
  induction k with
  | zero =>
    intro i j
    simp [syncCleanupEvents]
  | succ k ih =>
    intro i j
    simp [syncCleanupEvents, List.mem_append, mem_ite_singleton_iff, ih]

/-- `cleanup` of a pipeline whose framebuffer vector was already moved
out destroys no framebuffer at all. -/
theorem cleanup_no_fb (p : Pipeline) (N : Nat) (hfb : p.framebuffers = []) :
    ∀ j, Event.evDestroyFramebuffer j ∉ (p.cleanup N).2 := by
  intro j hmem
  unfold Pipeline.cleanup at hmem
  simp only [hfb, List.length_nil] at hmem
  simp [List.mem_cons, List.mem_append, mem_ite_singleton_iff, destroyEventsAux,
    uniformCleanupEvents_no_fb, syncCleanupEvents_no_fb,
    destroyEventsAux_cmdPool_no_fb] at hmem

/-! ### The claims -/

/-- Claim C1 counterexample: with descriptor-pool creation forced to
fail, `initialize` returns failure, but the descriptor-set layout, the
render pass, the graphics pipeline and the uniform buffers created by the
earlier build steps of that same call are all still held when
`initialize` returns — contrary to the claim that every earlier-stage
resource is released before returning. -/
theorem claim_C1_cex :
    (Pipeline.start.initialise envPoolFail 2).1 = false ∧
    (Pipeline.start.initialise envPoolFail 2).2.descriptorSetLayout = true ∧
    (Pipeline.start.initialise envPoolFail 2).2.renderPass = true ∧
    (Pipeline.start.initialise envPoolFail 2).2.graphicsPipeline = true ∧
    (Pipeline.start.initialise envPoolFail 2).2.uniformBuffers =
      List.replicate 2 true := by
  exact ⟨rfl, rfl, rfl, rfl, rfl⟩

/-- Claim C1 (amended): if any build step of `initialize` fails (for
example descriptor-pool creation), `initialize` returns failure and the
state remains `UNINITIALIZED` — it never transitions to `READY` — but the
resources created by earlier build steps of that same call are NOT
released before `initialize` returns: they stay held until a later
`cleanup`. -/
theorem claim_C1 :
    (∀ (env : GpuEnv) (N : Nat) (p : Pipeline), p.state = State.UNINITIALIZED →
      (p.initialise env N).1 = false →
      (p.initialise env N).2.state = State.UNINITIALIZED) ∧
    ((Pipeline.start.initialise envPoolFail 2).1 = false ∧
      (Pipeline.start.initialise envPoolFail 2).2.state = State.UNINITIALIZED ∧
      (Pipeline.start.initialise envPoolFail 2).2.descriptorSetLayout = true) :=
  ⟨fun env N p hp h => initialise_fail_state p env N hp h, rfl, rfl, rfl⟩

/-- Claim C1 witness: the amended statement at the concrete failure
injection. -/
theorem claim_C1_wit :
    Pipeline.start.state = State.UNINITIALIZED ∧
    (Pipeline.start.initialise envPoolFail 2).1 = false ∧
    (Pipeline.start.initialise envPoolFail 2).2.state = State.UNINITIALIZED :=
  ⟨rfl, rfl, claim_C1.1 envPoolFail 2 Pipeline.start rfl rfl⟩

/-- Claim C2: a stale-surface result is never treated as a hard error and
is the sole trigger for `RECREATING`: (1) whenever any of the five driven
calls ends with state `RECREATING`, either it already was `RECREATING`,
or the call was `beginFrame` with a stale acquisition, or `endFrame` with
a stale/suboptimal presentation; (2) the stale-acquire path enters
`RECREATING` without recording any error; (3) the stale-present path
still returns success and records no error. -/
theorem claim_C2 :
    (∀ (c : ApiCall) (env : GpuEnv) (N : Nat) (p : Pipeline), (runCall c env N p).state = State.RECREATING →
      p.state = State.RECREATING ∨
      (c = ApiCall.callBeginFrame ∧
        env.acquireResult = VkResult.errorOutOfDateKHR) ∨
      (c = ApiCall.callEndFrame ∧
        (env.presentResult = VkResult.errorOutOfDateKHR ∨
          env.presentResult = VkResult.suboptimalKHR))) ∧
    (∀ (env : GpuEnv) (p : Pipeline), p.state = State.READY →
      env.acquireResult = VkResult.errorOutOfDateKHR →
      (p.beginFrame env).2.1.state = State.RECREATING ∧
      (p.beginFrame env).2.1.lastError = p.lastError) ∧
    (∀ (env : GpuEnv) (N : Nat) (p : Pipeline), p.state = State.READY → env.endCommandBufferOk = true →
      env.queueSubmitOk = true →
      (env.presentResult = VkResult.errorOutOfDateKHR ∨
        env.presentResult = VkResult.suboptimalKHR) →
      (p.endFrame env N).1 = true ∧
      (p.endFrame env N).2.1.state = State.RECREATING ∧
      (p.endFrame env N).2.1.lastError = p.lastError) := by
  refine ⟨?_, ?_, ?_⟩
  · intro c env N p h
    cases c
    case callInit =>
      simp only [runCall] at h
      rcases initialise_state p env N with hs | hs
      · left
        rw [← hs]
        exact h
      · rw [hs] at h
        exact absurd h (by simp)
    case callCleanup =>
      simp only [runCall] at h
      rw [cleanup_state] at h
      exact absurd h (by simp)
    case callBeginFrame =>
      simp only [runCall] at h
      rcases beginFrame_state p env with hs | ⟨_, hacq, _⟩
      · left
        rw [← hs]
        exact h
      · right
        left
        exact ⟨rfl, hacq⟩
    case callEndFrame =>
      simp only [runCall] at h
      rcases endFrame_state p env N with hs | ⟨_, hpres, _⟩
      · left
        rw [← hs]
        exact h
      · right
        right
        exact ⟨rfl, hpres⟩
    case callRecreate =>
      by_cases hp : p.state = State.RECREATING
      · left
        exact hp
      · simp [runCall, Pipeline.recreateIfNeeded, hp] at h
  · intro env p h1 h2
    refine ⟨?_, ?_⟩ <;> simp [Pipeline.beginFrame, h1, h2]
  · intro env N p h1 h2 h3 h4
    refine ⟨?_, ?_, ?_⟩ <;> simp [Pipeline.endFrame, h1, h2, h3, h4]

/-- Claim C2 witness: the three components at concrete stale scenarios. -/
theorem claim_C2_wit :
    (pBuilt.state = State.RECREATING ∨
      (ApiCall.callBeginFrame = ApiCall.callBeginFrame ∧
        envAcquireStale.acquireResult = VkResult.errorOutOfDateKHR) ∨
      (ApiCall.callBeginFrame = ApiCall.callEndFrame ∧
        (envAcquireStale.presentResult = VkResult.errorOutOfDateKHR ∨
          envAcquireStale.presentResult = VkResult.suboptimalKHR))) ∧
    ((pBuilt.beginFrame envAcquireStale).2.1.state = State.RECREATING ∧
      (pBuilt.beginFrame envAcquireStale).2.1.lastError = pBuilt.lastError) ∧
    ((pBuilt.endFrame envPresentStale 2).1 = true ∧
      (pBuilt.endFrame envPresentStale 2).2.1.state = State.RECREATING ∧
      (pBuilt.endFrame envPresentStale 2).2.1.lastError = pBuilt.lastError) :=
  ⟨claim_C2.1 ApiCall.callBeginFrame envAcquireStale 2 pBuilt (by decide),
   claim_C2.2.1 envAcquireStale pBuilt (by decide) rfl,
   claim_C2.2.2 envPresentStale 2 pBuilt (by decide) rfl rfl (by decide)⟩

/-- Claim C3 counterexample: an `endFrame` call in the `READY` state
whose queue submission fails returns with the slot index unmoved — the
index is not advanced on every `endFrame` call regardless of outcome. -/
theorem claim_C3_cex :
    pBuilt.state = State.READY ∧ pBuilt.currentFrame = 0 ∧
    (pBuilt.endFrame envSubmitFail 2).2.1.currentFrame = 0 ∧ (0 + 1) % 2 = 1 := by
  exact ⟨rfl, rfl, rfl, rfl⟩

/-- Claim C3 (amended): the slot index advances as `(i+1) mod N` on every
`endFrame` call that reaches presentation with a success, suboptimal or
out-of-date result — the success case and the stale-surface case alike;
calls that fail before or at presentation (state-precondition violation,
command-buffer close failure, submission failure, fatal present error)
leave the slot index unchanged. -/
theorem claim_C3 :
    (∀ (env : GpuEnv) (N : Nat) (p : Pipeline), p.state = State.READY → env.endCommandBufferOk = true →
      env.queueSubmitOk = true → env.presentResult ≠ VkResult.errorOther →
      (p.endFrame env N).2.1.currentFrame = (p.currentFrame + 1) % N) ∧
    (∀ (env : GpuEnv) (N : Nat) (p : Pipeline), env.endCommandBufferOk = false ∨ env.queueSubmitOk = false ∨
      env.presentResult = VkResult.errorOther ∨ p.state ≠ State.READY →
      (p.endFrame env N).2.1.currentFrame = p.currentFrame) := by
  constructor
  · intro env N p h1 h2 h3 h4
    by_cases h5 : env.presentResult = VkResult.errorOutOfDateKHR ∨
        env.presentResult = VkResult.suboptimalKHR
    · simp [Pipeline.endFrame, h1, h2, h3, h5]
    · have h6 : env.presentResult = VkResult.success := by
        cases henv : env.presentResult <;> simp_all
      simp [Pipeline.endFrame, h1, h2, h3, h6]
  · intro env N p h
    by_cases h1 : p.state = State.READY
    · by_cases h2 : env.endCommandBufferOk
      · by_cases h3 : env.queueSubmitOk
        · have h4 : env.presentResult = VkResult.errorOther := by
            rcases h with h | h | h | h
            · exact absurd h2 (by simp [h])
            · exact absurd h3 (by simp [h])
            · exact h
            · exact absurd h1 h
          simp [Pipeline.endFrame, h1, h2, h3, h4, Pipeline.setError]
        · simp [Pipeline.endFrame, h1, h2, h3, Pipeline.setError]
      · simp [Pipeline.endFrame, h1, h2, Pipeline.setError]
    · simp [Pipeline.endFrame, h1, Pipeline.setError]

/-- Claim C3 witness: both parts at concrete inputs — the stale-present
call advances from 0 to 1, the failed-submit call stays at 0. -/
theorem claim_C3_wit :
    ((pBuilt.endFrame envPresentStale 2).2.1.currentFrame =
      (pBuilt.currentFrame + 1) % 2) ∧
    ((pBuilt.endFrame envSubmitFail 2).2.1.currentFrame =
      pBuilt.currentFrame) :=
  ⟨claim_C3.1 envPresentStale 2 pBuilt (by decide) rfl rfl (by decide),
   claim_C3.2 envSubmitFail 2 pBuilt (Or.inr (Or.inl rfl))⟩

/-- Claim C4: when image acquisition reports the surface out of date,
`beginFrame` moves the state to `RECREATING` and returns failure with the
member state otherwise untouched (in particular the slot's fence and
command recorder are unchanged), and the only GPU calls performed are the
fence wait and the acquisition itself — no fence reset, no
command-buffer reset, no recording. -/
theorem claim_C4 :
    ∀ (env : GpuEnv) (p : Pipeline), p.state = State.READY →
      env.acquireResult = VkResult.errorOutOfDateKHR →
      p.beginFrame env = (false, { p with state := State.RECREATING },
        [Event.evWaitFence p.currentFrame, Event.evAcquire p.currentFrame]) := by
  intro env p h1 h2
  simp [Pipeline.beginFrame, h1, h2]

/-- Claim C4 witness: the stale-acquire path at the concrete built
pipeline. -/
theorem claim_C4_wit :
    pBuilt.state = State.READY ∧
    pBuilt.beginFrame envAcquireStale = (false,
      { pBuilt with state := State.RECREATING },
      [Event.evWaitFence pBuilt.currentFrame,
        Event.evAcquire pBuilt.currentFrame]) :=
  ⟨by decide, claim_C4 envAcquireStale pBuilt (by decide) rfl⟩

/-- Claim C5: `recreateIfNeeded` is a no-op returning success (and
performing no GPU call) outside `RECREATING`.  In `RECREATING` its GPU
calls are exactly the device-idle wait, then the up-front destruction of
the old framebuffers — one destroy event for every live old framebuffer —
and only then the full `cleanup` trace, which itself destroys no
framebuffer because the target set was moved out beforehand (double-free
proofing); the rebuild result is exactly the full `cleanup` followed by a
full initialize, and its outcome is returned: on failure the machine is
left `UNINITIALIZED`, on success it is `READY` with exactly one
framebuffer per presentable image.  The complete call order is also
exhibited on the concrete stale three-image pipeline. -/
theorem claim_C5 :
    (∀ (env : GpuEnv) (N : Nat) (p : Pipeline), p.state ≠ State.RECREATING →
      p.recreateIfNeeded env N = (true, p, [])) ∧
    (∀ (env : GpuEnv) (N : Nat) (p : Pipeline), p.state = State.RECREATING →
      ((p.recreateIfNeeded env N).2.2 =
        Event.evWaitIdle ::
          (destroyEventsAux Event.evDestroyFramebuffer
              (fun i => p.framebuffers.getD i false) 0 p.framebuffers.length ++
            (Pipeline.cleanup { p with framebuffers := [] } N).2)) ∧
      (∀ j, j < p.framebuffers.length → p.framebuffers.getD j false = true →
        Event.evDestroyFramebuffer j ∈
          destroyEventsAux Event.evDestroyFramebuffer
            (fun i => p.framebuffers.getD i false) 0 p.framebuffers.length) ∧
      (∀ j, Event.evDestroyFramebuffer j ∉
        (Pipeline.cleanup { p with framebuffers := [] } N).2) ∧
      ((p.recreateIfNeeded env N).1 =
        ((Pipeline.cleanup { p with framebuffers := [] } N).1.initialise env N).1) ∧
      ((p.recreateIfNeeded env N).2.1 =
        ((Pipeline.cleanup { p with framebuffers := [] } N).1.initialise env N).2) ∧
      ((p.recreateIfNeeded env N).1 = false →
        (p.recreateIfNeeded env N).2.1.state = State.UNINITIALIZED) ∧
      ((p.recreateIfNeeded env N).1 = true →
        (p.recreateIfNeeded env N).2.1.state = State.READY ∧
        (p.recreateIfNeeded env N).2.1.framebuffers.length =
          env.swapChainImageCount)) ∧
    ((pStale.recreateIfNeeded envOk 2).2.2 = [Event.evWaitIdle,
      Event.evDestroyFramebuffer 0, Event.evDestroyFramebuffer 1,
      Event.evDestroyFramebuffer 2, Event.evWaitIdle,
      Event.evUnmapUniform 0, Event.evDestroyUniformBuffer 0,
      Event.evFreeUniformMemory 0, Event.evUnmapUniform 1,
      Event.evDestroyUniformBuffer 1, Event.evFreeUniformMemory 1,
      Event.evDestroyDescriptorPool, Event.evDestroyDescriptorSetLayout,
      Event.evDestroyImageAvailableSemaphore 0,
      Event.evDestroyRenderFinishedSemaphore 0, Event.evDestroyFence 0,
      Event.evDestroyImageAvailableSemaphore 1,
      Event.evDestroyRenderFinishedSemaphore 1, Event.evDestroyFence 1,
      Event.evDestroyCommandPool 0, Event.evDestroyCommandPool 1,
      Event.evDestroyPipeline, Event.evDestroyPipelineLayout,
      Event.evDestroyRenderPass]) := by
  refine ⟨?_, ?_, ?_⟩
  · intro env N p hp
    simp [Pipeline.recreateIfNeeded, hp]
  · intro env N p hp
    have hnot : ¬ p.state ≠ State.RECREATING := by simp [hp]
    refine ⟨?_, ?_, ?_, ?_, ?_, ?_, ?_⟩
    · simp [Pipeline.recreateIfNeeded, hnot]
    · intro j hj hheld
      exact destroyEventsAux_mem _ _ p.framebuffers.length 0 j (Nat.zero_le j)
        (by omega) hheld
    · exact cleanup_no_fb _ N rfl
    · simp [Pipeline.recreateIfNeeded, hnot]
    · simp [Pipeline.recreateIfNeeded, hnot]
    · intro hfail
      simp only [Pipeline.recreateIfNeeded, hnot, if_false, reduceIte] at hfail ⊢
      exact initialise_fail_state _ env N (cleanup_state _ N) hfail
    · intro hok
      simp only [Pipeline.recreateIfNeeded, hnot, if_false, reduceIte] at hok ⊢
      rw [initialise_ok _ env N hok]
      exact ⟨rfl, by simp [builtPipeline]⟩
  · rfl

/-- Claim C5 witness: the no-op case at the ready pipeline and, at the
concrete stale pipeline, the presence of the up-front destroy of old
framebuffer 1, its absence from the subsequent cleanup trace, and the
successful rebuild back to `READY` with three framebuffers. -/
theorem claim_C5_wit :
    (pBuilt.recreateIfNeeded envOk 2 = (true, pBuilt, [])) ∧
    (Event.evDestroyFramebuffer 1 ∈
      destroyEventsAux Event.evDestroyFramebuffer
        (fun i => pStale.framebuffers.getD i false) 0
        pStale.framebuffers.length) ∧
    (Event.evDestroyFramebuffer 1 ∉
      (Pipeline.cleanup { pStale with framebuffers := [] } 2).2) ∧
    ((pStale.recreateIfNeeded envOk 2).2.1.state = State.READY ∧
      (pStale.recreateIfNeeded envOk 2).2.1.framebuffers.length =
        envOk.swapChainImageCount) :=
  ⟨claim_C5.1 envOk 2 pBuilt (by decide),
   (claim_C5.2.1 envOk 2 pStale (by decide)).2.1 1 (by decide) (by decide),
   (claim_C5.2.1 envOk 2 pStale (by decide)).2.2.1 1,
   (claim_C5.2.1 envOk 2 pStale (by decide)).2.2.2.2.2.2 (by decide)⟩

/-- Claim C6: calling `beginFrame` or `endFrame` outside `READY`, or
`initialize` outside `UNINITIALIZED`, returns failure with the usage
error recorded, performs no GPU call (empty call trace) and mutates
nothing but the error string — the member state including the fences and
semaphores is exactly the caller's with only `lastError` replaced. -/
theorem claim_C6 :
    (∀ (env : GpuEnv) (p : Pipeline), p.state ≠ State.READY →
      p.beginFrame env =
        (false, p.setError "Pipeline is not in ready state", [])) ∧
    (∀ (env : GpuEnv) (N : Nat) (p : Pipeline), p.state ≠ State.READY →
      p.endFrame env N =
        (false, p.setError "Pipeline is not in ready state", [])) ∧
    (∀ (env : GpuEnv) (N : Nat) (p : Pipeline), p.state ≠ State.UNINITIALIZED →
      p.initialise env N =
        (false, p.setError "Pipeline is already initialized")) := by
  refine ⟨?_, ?_, ?_⟩
  · intro env p hp
    simp [Pipeline.beginFrame, hp]
  · intro env N p hp
    simp [Pipeline.endFrame, hp]
  · intro env N p hp
    simp [Pipeline.initialise, hp]

/-- Claim C6 witness: the three usage errors at concrete states. -/
theorem claim_C6_wit :
    (Pipeline.start.beginFrame envOk =
      (false, Pipeline.start.setError "Pipeline is not in ready state", [])) ∧
    (Pipeline.start.endFrame envOk 2 =
      (false, Pipeline.start.setError "Pipeline is not in ready state", [])) ∧
    (pBuilt.initialise envOk 2 =
      (false, pBuilt.setError "Pipeline is already initialized")) :=
  ⟨claim_C6.1 envOk Pipeline.start (by decide),
   claim_C6.2.1 envOk 2 Pipeline.start (by decide),
   claim_C6.2.2 envOk 2 pBuilt (by decide)⟩

/-- Claim C7 counterexample: in the cleanup of the fully-built pipeline
the destruction of command pool 0 (a per-frame resource) happens at
trace position 15, after the destruction of the last per-frame sync
object (fence 1) at position 14 — so the per-frame sync objects are not
destroyed last among the per-frame resources. -/
theorem claim_C7_cex :
    (pBuilt.cleanup 2).2[14]? = some (Event.evDestroyFence 1) ∧
    (pBuilt.cleanup 2).2[15]? = some (Event.evDestroyCommandPool 0) := by
  exact ⟨rfl, rfl⟩

/-- Claim C7 (amended): `cleanup` waits for device idle first, releases
resources in reverse-dependency order — the descriptor pool strictly
before the descriptor layout and every framebuffer strictly before the
render pass — resets the state to `UNINITIALIZED`, and is idempotent;
however among the per-frame resources the sync objects are destroyed
after the uniform buffers but before the command pools, not last.  The
full destruction order is exhibited on the fully-built two-slot,
three-image pipeline. -/
theorem claim_C7 :
    (∀ (N : Nat) (p : Pipeline), ((p.cleanup N).2).head? = some Event.evWaitIdle) ∧
    (∀ (N : Nat) (p : Pipeline), (p.cleanup N).1.state = State.UNINITIALIZED) ∧
    (∀ (N : Nat) (p : Pipeline), ((p.cleanup N).1).cleanup N = ((p.cleanup N).1, [Event.evWaitIdle])) ∧
    ((pBuilt.cleanup 2).2.length = 23 ∧
      (pBuilt.cleanup 2).2[0]? = some Event.evWaitIdle ∧
      (pBuilt.cleanup 2).2[1]? = some (Event.evUnmapUniform 0) ∧
      (pBuilt.cleanup 2).2[6]? = some (Event.evFreeUniformMemory 1) ∧
      (pBuilt.cleanup 2).2[7]? = some Event.evDestroyDescriptorPool ∧
      (pBuilt.cleanup 2).2[8]? = some Event.evDestroyDescriptorSetLayout ∧
      (pBuilt.cleanup 2).2[9]? =
        some (Event.evDestroyImageAvailableSemaphore 0) ∧
      (pBuilt.cleanup 2).2[14]? = some (Event.evDestroyFence 1) ∧
      (pBuilt.cleanup 2).2[15]? = some (Event.evDestroyCommandPool 0) ∧
      (pBuilt.cleanup 2).2[16]? = some (Event.evDestroyCommandPool 1) ∧
      (pBuilt.cleanup 2).2[17]? = some (Event.evDestroyFramebuffer 0) ∧
      (pBuilt.cleanup 2).2[19]? = some (Event.evDestroyFramebuffer 2) ∧
      (pBuilt.cleanup 2).2[20]? = some Event.evDestroyPipeline ∧
      (pBuilt.cleanup 2).2[21]? = some Event.evDestroyPipelineLayout ∧
      (pBuilt.cleanup 2).2[22]? = some Event.evDestroyRenderPass) := by
  refine ⟨fun N p => cleanup_head p N, fun N p => cleanup_state p N,
    fun N p => cleanup_idem p N, ?_⟩
  exact ⟨rfl, rfl, rfl, rfl, rfl, rfl, rfl, rfl, rfl, rfl, rfl, rfl, rfl,
    rfl, rfl⟩

/-- Claim C8: whenever `initialize` succeeds, every slot-indexed
collection — command pools, command buffers, fences, both semaphore
vectors, the three uniform-buffer vectors, descriptor sets — holds
exactly N live entries, so N command recorders, N fences, N semaphore
pairs, N uniform blocks and N descriptor sets exist. -/
theorem claim_C8 :
    ∀ (env : GpuEnv) (N : Nat) (p : Pipeline), (p.initialise env N).1 = true →
      ((p.initialise env N).2.commandPools = List.replicate N true ∧
        (p.initialise env N).2.commandBuffers =
          List.replicate N (some CmdState.initial) ∧
        (p.initialise env N).2.inFlightFences = List.replicate N (some true) ∧
        (p.initialise env N).2.imageAvailableSemaphores =
          List.replicate N true ∧
        (p.initialise env N).2.renderFinishedSemaphores =
          List.replicate N true ∧
        (p.initialise env N).2.uniformBuffers = List.replicate N true ∧
        (p.initialise env N).2.uniformBuffersMemory = List.replicate N true ∧
        (p.initialise env N).2.uniformBuffersMapped = List.replicate N true ∧
        (p.initialise env N).2.descriptorSets = List.replicate N true) ∧
      ((p.initialise env N).2.commandPools.length = N ∧
        (p.initialise env N).2.commandBuffers.length = N ∧
        (p.initialise env N).2.inFlightFences.length = N ∧
        (p.initialise env N).2.imageAvailableSemaphores.length = N ∧
        (p.initialise env N).2.renderFinishedSemaphores.length = N ∧
        (p.initialise env N).2.uniformBuffers.length = N ∧
        (p.initialise env N).2.uniformBuffersMemory.length = N ∧
        (p.initialise env N).2.uniformBuffersMapped.length = N ∧
        (p.initialise env N).2.descriptorSets.length = N) := by
  intro env N p h
  rw [initialise_ok p env N h]
  simp [builtPipeline]

/-- Claim C8 witness: the two-slot configuration against `envOk`. -/
theorem claim_C8_wit :
    (Pipeline.start.initialise envOk 2).1 = true ∧
    (Pipeline.start.initialise envOk 2).2.commandPools.length = 2 ∧
    (Pipeline.start.initialise envOk 2).2.descriptorSets =
      List.replicate 2 true :=
  ⟨by decide, (claim_C8 envOk 2 Pipeline.start (by decide)).2.1,
    (claim_C8 envOk 2 Pipeline.start (by decide)).1.2.2.2.2.2.2.2.2⟩

/-- Claim C9: the per-frame uniform update computes the standard
right-handed 45-degree-fov perspective projection with near plane 1/10
and far plane 1000 and aspect ratio `width / height` (so `1920 / 1080`
for the 1920x1080 extent), then negates exactly the `[1][1]` entry; for
any positive `tan(fovy/2)` the resulting `[1][1]` entry is negative where
the standard projection's is positive — the Vulkan Y flip. -/
theorem claim_C9 :
    ∀ t : ℚ,
      (∀ c r : Fin 4, ¬(c = 1 ∧ r = 1) →
        updateUniformProj t 1920 1080 c r =
          perspectiveRH t (1920 / 1080) (1 / 10) 1000 c r) ∧
      updateUniformProj t 1920 1080 1 1 =
        -(perspectiveRH t (1920 / 1080) (1 / 10) 1000 1 1) ∧
      updateUniformProj t 1920 1080 0 0 = 1 / ((1920 / 1080) * t) ∧
      (0 < t →
        updateUniformProj t 1920 1080 1 1 < 0 ∧
        0 < perspectiveRH t (1920 / 1080) (1 / 10) 1000 1 1) := by
  intro t
  refine ⟨?_, ?_, ?_, ?_⟩
  · intro c r hcr
    simp [updateUniformProj, hcr]
  · simp [updateUniformProj, perspectiveRH]
  · simp [updateUniformProj, perspectiveRH]
  · intro ht
    have hinv : 0 < 1 / t := by positivity
    constructor
    · simp only [updateUniformProj, perspectiveRH]
      norm_num
      linarith
    · simp only [perspectiveRH]
      norm_num
      exact ht

/-- Claim C9 witness: the projection facts at `tan(fovy/2) = 1`. -/
theorem claim_C9_wit :
    ¬((0 : Fin 4) = 1 ∧ (0 : Fin 4) = 1) ∧
    updateUniformProj 1 1920 1080 0 0 =
      perspectiveRH 1 (1920 / 1080) (1 / 10) 1000 0 0 ∧
    (0 : ℚ) < 1 ∧ updateUniformProj 1 1920 1080 1 1 < 0 :=
  ⟨by decide, (claim_C9 1).1 0 0 (by decide), by norm_num,
    ((claim_C9 1).2.2.2 (by norm_num)).1⟩

/-- Claim C10: every per-slot fence is created with
`VK_FENCE_CREATE_SIGNALED_BIT`, so immediately after a successful
`initialize` the fence of every slot `i < N` is already in the signaled
state (`some true`) — the mandatory fence wait at the start of the first
`beginFrame` of any slot cannot block before any work was submitted. -/
theorem claim_C10 :
    ∀ (env : GpuEnv) (N : Nat) (p : Pipeline), (p.initialise env N).1 = true →
      (p.initialise env N).2.inFlightFences = List.replicate N (some true) ∧
      ∀ i, i < N →
        (p.initialise env N).2.inFlightFences[i]? = some (some true) := by
  intro env N p h
  rw [initialise_ok p env N h]
  constructor
  · simp [builtPipeline]
  · intro i hi
    simp [builtPipeline, List.getElem?_replicate, hi]

/-- Claim C10 witness: both slots of the two-slot configuration hold a
signaled fence after the successful initialize. -/
theorem claim_C10_wit :
    (Pipeline.start.initialise envOk 2).1 = true ∧
    (Pipeline.start.initialise envOk 2).2.inFlightFences[0]? =
      some (some true) ∧
    (Pipeline.start.initialise envOk 2).2.inFlightFences[1]? =
      some (some true) :=
  ⟨by decide, (claim_C10 envOk 2 Pipeline.start (by decide)).2 0 (by decide),
    (claim_C10 envOk 2 Pipeline.start (by decide)).2 1 (by decide)⟩

end Voxceleron
